import Mathlib

set_option autoImplicit false

/-!
Verification development for the evaluation pipeline of a persona-driven
conversational-agent quality harness.

The development shallowly embeds the pipeline components found under
`api/analyze/` of the repository:

* `bleurt_scorer.py`   — semantic similarity scorer (`BLEURTScorer`)
* `mt_bench_evaluator.py` — rubric judge (`MTBenchEvaluator`)
* `judge_ai.py`        — strategy dispatcher (`JudgeAI`)
* `tester_ai.py`       — question firing (`TesterAI`)
* `orchestrator.py`    — session lifecycle (`AnalyzeOrchestrator`)

Modelling conventions, used uniformly below:

* Python floats are modelled as `Rat`.  Every comparison and every piece of
  score arithmetic in the sources is exact arithmetic on literals, so `Rat`
  is a faithful carrier; the one floating-point-tolerance statement in the
  spec (1e-6) is subsumed by exact equality.
* Python dictionaries with a fixed key discipline are modelled as
  structures; a key that may be absent is an `Option` field.
* `async` functions contain no interleaving observable by these claims
  (each pipeline stage runs sequentially inside one task), so they are
  modelled as plain functions.
* Exceptions are modelled with `Except String`.  A Python function that
  can raise is embedded with result type `Except String α`; a function
  that catches everything internally is embedded as total.
* External collaborators (the LLM chat-completion client, `json.loads`,
  and the similarity-model backend) are oracle parameters: arbitrary
  functions supplied to the embedded code.  Theorems quantify over them;
  witnesses instantiate them concretely.
* Logging calls are pure of effect and are dropped, except where an
  f-string interpolation can itself raise; those corner cases are noted
  at the definition they affect.
-/

/-- JSON values, as produced by the `json.loads` oracle.  Python dict keys
are modelled as an association list (duplicate keys cannot arise from
`json.loads`, which keeps only the last binding). -/
inductive Json where
  | null : Json
  | bool (b : Bool) : Json
  | num (q : Rat) : Json
  | str (s : String) : Json
  | arr (elems : List Json) : Json
  | obj (fields : List (String × Json)) : Json

instance : Inhabited Json := ⟨Json.null⟩

/-- Dictionary lookup on a JSON object; `none` on non-objects or missing keys. -/
def Json.lookup : Json → String → Option Json
  | .obj fields, k => fields.lookup k
  | _, _ => none

/-- Python `data.get(key, default)` on a JSON object. -/
def Json.getD (j : Json) (k : String) (d : Json) : Json :=
  (j.lookup k).getD d

/-- Python `float(x)` coercion on a JSON value: numbers pass through,
booleans coerce to 0/1, everything else fails (numeric strings, which
`float` would also parse, are outside the modelled domain; no claim
depends on them). -/
def Json.asNum : Json → Option Rat
  | .num q => some q
  | .bool b => some (if b then 1 else 0)
  | _ => none

/-- Extract a string with a default, as the sources do with
`data.get(key, default)` for text fields.  A non-string value present
under the key is replaced by the default (the sources would carry the
raw value along; no claim reads these fields). -/
def Json.strFieldD (j : Json) (k : String) (d : String) : String :=
  match j.lookup k with
  | some (.str s) => s
  | _ => d

/-- Extract a list of strings with default `[]`, as the sources do for
the `strengths` / `weaknesses` fields. -/
def Json.strListD (j : Json) (k : String) : List String :=
  match j.lookup k with
  | some (.arr elems) => elems.filterMap fun e =>
      match e with
      | .str s => some s
      | _ => none
  | _ => []

/-- Whitespace test for Python `str.strip`. -/
def isSpaceChar (c : Char) : Bool :=
  c = ' ' ∨ c = '\t' ∨ c = '\n' ∨ c = '\r'

/-- Python `str.strip()`: drop leading and trailing whitespace. -/
def stripString (s : String) : String :=
  String.mk (((s.toList.dropWhile isSpaceChar).reverse.dropWhile isSpaceChar).reverse)

/-- Python f-string rendering of a response slot: a stored `None`
interpolates as the text `None`. -/
def strOfBotResponse : Option String → String
  | some s => s
  | none => "None"

/-- Truthiness of an optional string, matching Python: a missing key and
an empty string are falsy. -/
def truthy : Option String → Bool
  | none => false
  | some s => s ≠ ""

/-- Question/answer pair parsed from a transcript.  Every access in the
sources goes through `.get("question", "")` / `.get("answer", "")`, so
missing keys behave exactly like empty strings and the fields are plain
strings. -/
structure QAPair where
  question : String
  answer : String
deriving Repr, DecidableEq, Inhabited

/-- Structured reasoning block carried inside an evaluation record. -/
structure Reasoning where
  content_analysis : String
  style_analysis : String
  strengths : List String
  weaknesses : List String
  bleurt_analysis : Option String := none
deriving Repr, DecidableEq, Inhabited

/-- Six-bucket distribution of raw semantic scores
(`JudgeAI._analyze_quality_distribution_raw_bleurt`). -/
structure QualityDistribution where
  excellent : Nat
  good : Nat
  moderate : Nat
  fair : Nat
  poor : Nat
  very_poor : Nat
deriving Repr, DecidableEq, Inhabited

/-- Evaluation record attached to a test result (the legacy-format dict
built throughout `judge_ai.py`).  Present-or-absent dict keys are
`Option` fields. -/
structure Evaluation where
  content_similarity : Rat
  style_fidelity : Rat
  overall_score : Rat
  mt_bench_scores : Option (List (String × Rat)) := none
  reasoning : Reasoning
  evaluation_method : String
  confidence : Option Rat := none
  bleurt_score : Option Rat := none
  bleurt_interpretation : Option String := none
  original_mt_bench_score : Option Rat := none
  original_legacy_score : Option Rat := none
  quality_distribution : Option QualityDistribution := none
  error : Option String := none
deriving Repr, DecidableEq, Inhabited

/-- A test-result record as produced by `TesterAI.fire_questions_sequentially`
and augmented by `JudgeAI.batch_evaluate`.  `status` is optional because the
error branch of `fire_questions_sequentially` writes no `status` key.
`bot_response = none` models the key present with value `None`: every
record the pipeline builds stores the key explicitly, and `None` arises
when the bot handler fails or returns an unexpected reply format — in
that case `result.get("bot_response", "")` yields the stored `None`,
not the default. -/
structure TRecord where
  question_index : Nat
  question : String
  bot_response : Option String
  timestamp : Rat
  status : Option String := none
  error : Option String := none
  evaluation : Option Evaluation := none
  expected_answer : Option String := none
deriving Repr, DecidableEq, Inhabited

/-- The fields of a test-result record that exist before evaluation; used
to state that `batch_evaluate` only augments records. -/
structure TRecordBase where
  question_index : Nat
  question : String
  bot_response : Option String
  timestamp : Rat
  status : Option String
  error : Option String
deriving Repr, DecidableEq, Inhabited

/-- Projection of a record onto its pre-evaluation fields. -/
def TRecord.base (r : TRecord) : TRecordBase :=
  ⟨r.question_index, r.question, r.bot_response, r.timestamp, r.status, r.error⟩

/-!
## SemanticScorer — `bleurt_scorer.py`

The scorer holds external state: whether the similarity model is loaded,
what loading it would do, and the model itself.  The model is the oracle
`backend` (`self.scorer.compute(predictions, references)["scores"]`,
which can raise) together with `normalize`, standing for
`BLEURTScorer._normalize_score`.  The source normalization squashes the
raw score through the real-valued logistic `1 / (1 + exp (-x))` clamped
to `[0, 1]`; no claim depends on its value, so it is kept as an oracle
alongside the backend rather than approximated in `Rat`.

`self._use_sentence_transformer` is initialized to `False` and never
assigned again anywhere in the repository, so the sentence-transformer
branch of `compute_score` is dead code and is not modelled.
-/

structure BLEURTScorer where
  model_loaded : Bool
  load_result : Except String Unit
  backend : List String → List String → Except String (List Rat)
  normalize : Rat → Rat

namespace BLEURTScorer

/-- The `_load_model` guard: a no-op when already loaded, otherwise the
outcome of loading.  `_load_model` re-raises on any failure (both the
`ImportError` and the generic branch end in `raise`). -/
def ensure_loaded (s : BLEURTScorer) : Except String Unit :=
  if s.model_loaded then .ok () else s.load_result

/-- `BLEURTScorer.compute_score`.  The `try` block covers the backend
call, the `[0]` indexing and the normalization, and maps any failure to
the sentinel `0.1`; the load step sits before the `try`, so a load
failure propagates. -/
def compute_score (s : BLEURTScorer) (reference candidate : String) :
    Except String Rat := do
  let _ ← s.ensure_loaded
  match s.backend [candidate] [reference] with
  | .error _ => .ok (1 / 10)
  | .ok scores =>
    match scores with
    | [] => .ok (1 / 10)
    | raw :: _ => .ok (s.normalize raw)

/-- `BLEURTScorer.batch_compute_scores`.  The length check is a `raise`
before the `try`, so it propagates, as does a load failure.  Inside the
`try`, a backend failure yields the sentinel list; so does a backend
returning no scores for a nonempty request, because the eager f-string
`min(normalized_scores)` then raises `ValueError` inside the `try`. -/
def batch_compute_scores (s : BLEURTScorer) (references candidates : List String) :
    Except String (List Rat) := do
  let _ ← s.ensure_loaded
  if references.length ≠ candidates.length then
    .error ("References and candidates must have the same length")
  else
    match s.backend candidates references with
    | .error _ => .ok (List.replicate references.length (1 / 10))
    | .ok raw_scores =>
      if raw_scores.isEmpty ∧ ¬ references.isEmpty then
        .ok (List.replicate references.length (1 / 10))
      else
        .ok (raw_scores.map s.normalize)

/-- `BLEURTScorer.get_score_interpretation`: fixed-threshold qualitative
buckets. -/
def get_score_interpretation (score : Rat) : String :=
  if 8 / 10 ≤ score then "Excellent semantic similarity"
  else if 7 / 10 ≤ score then "Good semantic similarity"
  else if 6 / 10 ≤ score then "Moderate semantic similarity"
  else if 4 / 10 ≤ score then "Fair semantic similarity"
  else if 2 / 10 ≤ score then "Poor semantic similarity"
  else "Very poor semantic similarity"

end BLEURTScorer

/-!
## RubricJudge — `mt_bench_evaluator.py`

`MTBenchEvaluator` holds the LLM client; the embedding passes the client
(`llm`, the chat-completion call, which can raise) and the `json.loads`
oracle (`loads`) explicitly.  Prompt text is embedded verbatim up to
surrounding whitespace; literal braces are written with character
escapes.
-/

/-- Structured evaluation result (`MTBenchEvaluation` dataclass).
`dimension_scores` is an association list standing for the Python dict;
non-numeric extra entries, which the source would carry along unread,
are outside the modelled domain. -/
structure MTBenchEvaluation where
  overall_score : Rat
  dimension_scores : List (String × Rat)
  reasoning : String
  strengths : List String
  weaknesses : List String
  confidence : Rat
  evaluation_method : String := "mt_bench"
deriving Repr, DecidableEq, Inhabited

namespace MTBenchEvaluator

/-- The five scored dimensions (`self.evaluation_dimensions`). -/
def evaluation_dimensions : List String :=
  ["relevance", "accuracy", "clarity", "depth", "helpfulness"]

/-- `MTBenchEvaluator._create_default_evaluation`. -/
def create_default_evaluation (error_msg : String) : MTBenchEvaluation where
  overall_score := 0
  dimension_scores := evaluation_dimensions.map fun dim => (dim, 0)
  reasoning := "Evaluation failed: " ++ error_msg
  strengths := []
  weaknesses := ["Evaluation error: " ++ error_msg]
  confidence := 0

/-- `MTBenchEvaluator._build_evaluation_prompt`: the fixed rubric prompt.
The numeric f-string pieces do not occur here; the text is joined with
newlines exactly as in the source. -/
def build_evaluation_prompt (question response : String)
    (context expected_answer persona_context : Option String) : String :=
  let base :=
    ["You are an expert AI evaluator using the MT-Bench methodology to assess response quality.",
     "",
     "Question: " ++ question,
     "Response: " ++ response]
  let withContext :=
    match context with
    | some c => if c ≠ "" then base ++ ["", "Context:", c] else base
    | none => base
  let withExpected :=
    match expected_answer with
    | some e => if e ≠ "" then withContext ++ ["", "Expected Answer:", e] else withContext
    | none => withContext
  let withPersona :=
    match persona_context with
    | some p => if p ≠ "" then withExpected ++ ["", "Persona Context:", p] else withExpected
    | none => withExpected
  let tail :=
    ["",
     "Evaluate the response on these dimensions (0-10 scale):",
     "- Relevance: How well does the response address the question?",
     "- Accuracy: Is the information factually correct and reliable?",
     "- Clarity: Is the response clear, well-structured, and easy to understand?",
     "- Depth: Does the response provide sufficient detail and insight?",
     "- Helpfulness: How useful and actionable is the response?",
     "",
     "Return ONLY a JSON object with this exact structure:",
     "\x7b",
     "  \"overall_score\": <float 0-1>,",
     "  \"dimension_scores\": \x7b",
     "    \"relevance\": <float 0-1>,",
     "    \"accuracy\": <float 0-1>,",
     "    \"clarity\": <float 0-1>,",
     "    \"depth\": <float 0-1>,",
     "    \"helpfulness\": <float 0-1>",
     "  \x7d,",
     "  \"reasoning\": \"<detailed evaluation reasoning>\",",
     "  \"strengths\": [\"<strength1>\", \"<strength2>\"],",
     "  \"weaknesses\": [\"<weakness1>\", \"<weakness2>\"],",
     "  \"confidence\": <float 0-1>",
     "\x7d",
     "",
     "Scoring guidelines:",
     "- 0.9-1.0: Exceptional quality",
     "- 0.7-0.8: Good quality with minor issues",
     "- 0.5-0.6: Acceptable with notable issues",
     "- 0.0-0.4: Poor quality or incorrect"]
  String.intercalate ("\n") (withPersona ++ tail)

/-- Index of the first occurrence of a character in a list, if any
(Python `str.find`). -/
def findFirstIdx (c : Char) : List Char → Option Nat
  | [] => none
  | x :: xs =>
    if x = c then some 0
    else (findFirstIdx c xs).map (· + 1)

/-- Index of the last occurrence of a character in a list, if any
(Python `str.rfind`). -/
def findLastIdx (c : Char) : List Char → Option Nat
  | [] => none
  | x :: xs =>
    match findLastIdx c xs with
    | some i => some (i + 1)
    | none => if x = c then some 0 else none

/-- The substring-based JSON extraction used on every LLM reply: slice
from the first `lbrace` to the last `rbrace` inclusive; `none` when
either is missing.  The slice may be empty or malformed when the last
closing brace precedes the first opening one, exactly as in the source
(`content[start_idx:end_idx]`). -/
def extractBraces (s : String) : Option String :=
  let cs := s.toList
  match findFirstIdx '\x7b' cs, findLastIdx '\x7d' cs with
  | some start_idx, some last_idx =>
    some (String.mk ((cs.drop start_idx).take (last_idx + 1 - start_idx)))
  | _, _ => none

/-- Coerce the parsed `dimension_scores` entries to floats.  The source
runs `float(...)` on each of the five known dimensions (a failure there
is a `ValueError`, caught by the parse handler); entries outside the five
dimensions are kept when numeric and are outside the modelled domain
otherwise (the source would keep the raw value unread). -/
def coerceDims : List (String × Json) → Except String (List (String × Rat))
  | [] => .ok []
  | (k, v) :: rest => do
    let tail ← coerceDims rest
    match v.asNum with
    | some q => .ok ((k, q) :: tail)
    | none =>
      if k ∈ evaluation_dimensions then
        .error ("could not convert dimension " ++ k)
      else
        .ok tail

/-- Default-fill the five dimensions: any dimension absent from the
parsed object is added with score `0.0`. -/
def fillDims (raw : List (String × Json)) : Except String (List (String × Rat)) := do
  let base ← coerceDims raw
  .ok (base ++ (evaluation_dimensions.filter fun d => (base.lookup d).isNone).map fun d => (d, 0))

/-- `MTBenchEvaluator._parse_evaluation_response`, embedded from the
`json.loads` result onward; the brace scan is `extractBraces`.  Every
failure — no braces, a loads failure, a non-object reply, or a
non-coercible score — lands in `create_default_evaluation`, matching the
source, where such failures are caught either by the parse handler
(`ValueError`/`KeyError`/`JSONDecodeError`) or by the caller
`evaluate_single_response` (other exception types); the two handlers
build the same default shape and differ only in the error text. -/
def parse_evaluation_response (loads : String → Except String Json)
    (response : String) : MTBenchEvaluation :=
  match extractBraces response with
  | none => create_default_evaluation ("No valid JSON found in response")
  | some json_str =>
    match loads json_str with
    | .error e => create_default_evaluation ("Parsing error: " ++ e)
    | .ok data =>
      match (data.getD ("overall_score") (.num 0)).asNum with
      | none => create_default_evaluation ("Parsing error: overall_score")
      | some overall_score =>
        match data.getD ("dimension_scores") (.obj []) with
        | .obj raw_dims =>
          match fillDims raw_dims with
          | .error e => create_default_evaluation ("Parsing error: " ++ e)
          | .ok dimension_scores =>
            match (data.getD ("confidence") (.num (1 / 2))).asNum with
            | none => create_default_evaluation ("Parsing error: confidence")
            | some confidence =>
              { overall_score := overall_score
                dimension_scores := dimension_scores
                reasoning := data.strFieldD ("reasoning") ("No reasoning provided")
                strengths := data.strListD ("strengths")
                weaknesses := data.strListD ("weaknesses")
                confidence := confidence }
        | _ => create_default_evaluation ("Parsing error: dimension_scores")

/-- `MTBenchEvaluator.evaluate_single_response`: build the rubric
prompt, call the judge LLM, parse the reply.  A raising LLM call is
caught by the outer handler and becomes a default evaluation; parse
failures already degrade inside `parse_evaluation_response`. -/
def evaluate_single_response (llm : String → Except String String)
    (loads : String → Except String Json)
    (question response : String)
    (context expected_answer : Option String) : MTBenchEvaluation :=
  match llm (build_evaluation_prompt question response context expected_answer none) with
  | .error e => create_default_evaluation ("Evaluation error: " ++ e)
  | .ok ai_evaluation => parse_evaluation_response loads ai_evaluation

/-- `MTBenchEvaluator.evaluate_batch_responses`: one sequential judge
call per zipped pair. -/
def evaluate_batch_responses (llm : String → Except String String)
    (loads : String → Except String Json)
    (qa_pairs : List QAPair) (responses : List String) : List MTBenchEvaluation :=
  (qa_pairs.zip responses).map fun p =>
    evaluate_single_response llm loads p.1.question p.2 none (some p.1.answer)

end MTBenchEvaluator

/-- Four-bucket score distribution used by both the rubric aggregate
metrics and the legacy aggregate metrics (thresholds 0.9 / 0.7 / 0.5). -/
structure ScoreDistribution where
  excellent : Nat
  good : Nat
  fair : Nat
  poor : Nat
deriving Repr, DecidableEq, Inhabited

/-- Build the four-bucket distribution from a list of overall scores. -/
def scoreDistributionOf (scores : List Rat) : ScoreDistribution where
  excellent := (scores.filter fun s => 9 / 10 ≤ s).length
  good := (scores.filter fun s => 7 / 10 ≤ s ∧ s < 9 / 10).length
  fair := (scores.filter fun s => 1 / 2 ≤ s ∧ s < 7 / 10).length
  poor := (scores.filter fun s => s < 1 / 2).length

/-- Aggregate metrics dict returned by
`MTBenchEvaluator.calculate_aggregate_metrics`. -/
structure MTMetrics where
  total_evaluations : Nat
  avg_overall_score : Rat
  pass_rate : Rat
  score_distribution : ScoreDistribution
  dimension_averages : List (String × Rat)
  common_strengths : List String
  common_weaknesses : List String
  evaluation_method : String
deriving Repr, DecidableEq, Inhabited

namespace MTBenchEvaluator

/-- Number of occurrences of a string in a list (a `Counter` count). -/
def countOcc (l : List String) (x : String) : Nat :=
  (l.filter fun y => y = x).length

/-- Deduplicate keeping first occurrences, in order: the iteration order
of `Counter` keys. -/
def dedupFirst : List String → List String
  | [] => []
  | x :: xs => x :: (dedupFirst xs).filter fun y => y ≠ x

/-- Insert into a list sorted by descending count, after any element of
equal count (stable, like `Counter.most_common`). -/
def insertByCount (counts : String → Nat) (x : String) : List String → List String
  | [] => [x]
  | y :: ys =>
    if counts y < counts x then x :: y :: ys
    else y :: insertByCount counts x ys

/-- `collections.Counter(l).most_common(k)`, keys only: sort the distinct
elements by descending count (stable in first-occurrence order) and take
the first `k`. -/
def mostCommon (k : Nat) (l : List String) : List String :=
  ((dedupFirst l).foldl (fun acc x => insertByCount (countOcc l) x acc) []).take k

/-- `MTBenchEvaluator._create_default_metrics`. -/
def create_default_metrics : MTMetrics where
  total_evaluations := 0
  avg_overall_score := 0
  pass_rate := 0
  score_distribution := ⟨0, 0, 0, 0⟩
  dimension_averages := evaluation_dimensions.map fun dim => ("avg_" ++ dim, 0)
  common_strengths := []
  common_weaknesses := []
  evaluation_method := "mt_bench"

/-- `MTBenchEvaluator.calculate_aggregate_metrics`: averages, pass rate
at threshold 0.7, the four-bucket distribution and the top-5 common
strengths and weaknesses. -/
def calculate_aggregate_metrics (evaluations : List MTBenchEvaluation) : MTMetrics :=
  if evaluations.isEmpty then create_default_metrics
  else
    let overall_scores := evaluations.map fun e => e.overall_score
    let all_strengths := evaluations.flatMap fun e => e.strengths
    let all_weaknesses := evaluations.flatMap fun e => e.weaknesses
    { total_evaluations := evaluations.length
      avg_overall_score := overall_scores.sum / overall_scores.length
      pass_rate :=
        ((overall_scores.filter fun s => 7 / 10 ≤ s).length : Rat) / overall_scores.length
      score_distribution := scoreDistributionOf overall_scores
      dimension_averages := evaluation_dimensions.map fun dim =>
        let scores := evaluations.map fun e => ((e.dimension_scores.lookup dim).getD 0)
        ("avg_" ++ dim, scores.sum / scores.length)
      common_strengths := mostCommon 5 all_strengths
      common_weaknesses := mostCommon 5 all_weaknesses
      evaluation_method := "mt_bench" }

end MTBenchEvaluator

/-!
## ScoreDispatcher — `judge_ai.py`

`JudgeAI` carries the two strategy flags fixed at construction, the LLM
client and `json.loads` oracles, and the optional semantic scorer (set
exactly when `use_bleurt` is, but modelled independently, with the
source behaviour for a missing scorer preserved).  Prompt and message
text is embedded up to whitespace and punctuation details; the f-string
numerals interpolated into purely informational reasoning strings are
elided, since no claim reads them.
-/

structure JudgeAI where
  use_mt_bench : Bool
  use_bleurt : Bool
  llm : String → Except String String
  loads : String → Except String Json
  bleurt_scorer : Option BLEURTScorer

namespace JudgeAI

/-- `JudgeAI._default_evaluation`: the zeroed evaluation used for
errored or skipped entries and for evaluator failures. -/
def default_evaluation (error_msg : String) : Evaluation where
  content_similarity := 0
  style_fidelity := 0
  overall_score := 0
  reasoning :=
    { content_analysis := "Evaluation failed"
      style_analysis := "Evaluation failed"
      strengths := []
      weaknesses := ["Evaluation error: " ++ error_msg] }
  evaluation_method := "legacy"
  error := some error_msg

/-- `JudgeAI._normalize_bleurt_for_weighting`: linear map of the raw
range [-2, 2] onto [0, 1], clamped; used only inside fusion arithmetic. -/
def normalize_bleurt_for_weighting (raw_bleurt_score : Rat) : Rat :=
  max 0 (min 1 ((raw_bleurt_score + 2) / 4))

/-- `JudgeAI._analyze_quality_distribution_raw_bleurt`: six buckets over
raw semantic scores.  The filters restate the elif chain of the source
as disjoint ranges. -/
def analyze_quality_distribution_raw_bleurt (bleurt_scores : List Rat) :
    QualityDistribution where
  excellent := (bleurt_scores.filter fun s => 1 ≤ s).length
  good := (bleurt_scores.filter fun s => 1 / 2 ≤ s ∧ s < 1).length
  moderate := (bleurt_scores.filter fun s => 0 ≤ s ∧ s < 1 / 2).length
  fair := (bleurt_scores.filter fun s => -(1 / 2) ≤ s ∧ s < 0).length
  poor := (bleurt_scores.filter fun s => -1 ≤ s ∧ s < -(1 / 2)).length
  very_poor := (bleurt_scores.filter fun s => s < -1).length

/-- The legacy single-shot evaluation prompt (`_evaluate_with_legacy`). -/
def legacy_evaluation_prompt (question expected_answer bot_response : String) : String :=
  String.intercalate ("\n")
    ["You are an expert AI evaluator. Compare the bot response to the expected answer and provide scores.",
     "",
     "Question: " ++ question,
     "",
     "Expected Answer: " ++ expected_answer,
     "",
     "Bot Response: " ++ bot_response,
     "",
     "Evaluate on these criteria and return ONLY a JSON object:",
     "",
     "\x7b",
     "    \"content_similarity\": <float 0-1>,",
     "    \"style_fidelity\": <float 0-1>, ",
     "    \"overall_score\": <float 0-1>,",
     "    \"reasoning\": \x7b",
     "        \"content_analysis\": \"Brief explanation of content similarity\",",
     "        \"style_analysis\": \"Brief explanation of style match\",",
     "        \"strengths\": [\"strength1\", \"strength2\"],",
     "        \"weaknesses\": [\"weakness1\", \"weakness2\"]",
     "    \x7d",
     "\x7d",
     "",
     "Scoring guidelines:",
     "- content_similarity: How well does the bot capture the key information/meaning?",
     "- style_fidelity: How well does the bot match the expected communication style?",
     "- overall_score: Weighted average (70% content, 30% style)"]

/-- Extraction of a required score field in the legacy parse: the source
default-fills an absent field with `0.0` and keeps a present value.  A
present non-numeric value (which the source would carry along unread
until later arithmetic) is outside the modelled domain and also reads as
the default. -/
def requiredScoreField (data : Json) (k : String) : Rat :=
  ((data.lookup k).bind Json.asNum).getD 0

/-- The reasoning block of a legacy-parsed evaluation: field-by-field
extraction of the nested dict, empty defaults when absent. -/
def legacyReasoningOf (data : Json) : Reasoning :=
  match data.lookup ("reasoning") with
  | some r =>
    { content_analysis := r.strFieldD ("content_analysis") ("")
      style_analysis := r.strFieldD ("style_analysis") ("")
      strengths := r.strListD ("strengths")
      weaknesses := r.strListD ("weaknesses") }
  | none => { content_analysis := "", style_analysis := "", strengths := [], weaknesses := [] }

/-- The parse stage of `JudgeAI._evaluate_with_legacy`: call the LLM
with the legacy prompt, slice out the JSON object, load it, default-fill
the three required score fields, tag the method and default the
confidence.  `.error` carries the message that the matching handler in
the source passes to `_default_evaluation`. -/
def legacy_parse (llm : String → Except String String)
    (loads : String → Except String Json)
    (question bot_response expected_answer : String) : Except String Evaluation :=
  match llm (legacy_evaluation_prompt question expected_answer bot_response) with
  | .error e => .error ("Evaluation error: " ++ e)
  | .ok content =>
    match MTBenchEvaluator.extractBraces content with
    | none => .error ("JSON parsing failed")
    | some json_str =>
      match loads json_str with
      | .error e => .error ("JSON decode error: " ++ e)
      | .ok data =>
        match data with
        | .obj _ =>
          .ok { content_similarity := requiredScoreField data ("content_similarity")
                style_fidelity := requiredScoreField data ("style_fidelity")
                overall_score := requiredScoreField data ("overall_score")
                reasoning := legacyReasoningOf data
                evaluation_method := "legacy"
                confidence := some (((data.lookup ("confidence")).bind Json.asNum).getD (7 / 10)) }
        | _ => .error ("Evaluation error: reply is not a JSON object")

/-- The successfully parsed legacy evaluation before any fusion; default
evaluation on every failure branch. -/
def legacy_base_evaluation (llm : String → Except String String)
    (loads : String → Except String Json)
    (question bot_response expected_answer : String) : Evaluation :=
  match legacy_parse llm loads question bot_response expected_answer with
  | .error msg => default_evaluation msg
  | .ok evaluation => evaluation

/-- `JudgeAI._evaluate_with_legacy`: the legacy parse followed, inside
the successful branch only, by the optional semantic fusion.  The
fusion handler catches a raising `compute_score` and keeps the unfused
evaluation.  The source assigns `original_legacy_score` only after
having already overwritten `overall_score` with the fused value, so the
retained field holds the fused score; the embedding reproduces that
assignment order faithfully. -/
def evaluate_with_legacy (llm : String → Except String String)
    (loads : String → Except String Json)
    (use_bleurt : Bool) (scorer : Option BLEURTScorer)
    (question bot_response expected_answer : String) : Evaluation :=
  match legacy_parse llm loads question bot_response expected_answer with
  | .error msg => default_evaluation msg
  | .ok evaluation =>
    match scorer with
    | some s =>
      if use_bleurt ∧ stripString expected_answer ≠ "" then
        match s.compute_score expected_answer bot_response with
        | .error _ => evaluation
        | .ok bleurt_score =>
          let interp := BLEURTScorer.get_score_interpretation bleurt_score
          let normalized_bleurt := normalize_bleurt_for_weighting bleurt_score
          let weighted_score := 7 / 10 * evaluation.overall_score + 3 / 10 * normalized_bleurt
          { evaluation with
              bleurt_score := some bleurt_score
              bleurt_interpretation := some interp
              overall_score := weighted_score
              original_legacy_score := some weighted_score
              reasoning := { evaluation.reasoning with
                bleurt_analysis := some ("BLEURT semantic similarity: " ++ interp) } }
      else evaluation
    | none => evaluation

/-- First index of a value in a list of indices: Python
`if i in valid_indices: valid_indices.index(i)` combined into one
operation. -/
def firstIndexOf (x : Nat) : List Nat → Option Nat
  | [] => none
  | y :: ys => if y = x then some 0 else (firstIndexOf x ys).map (· + 1)

/-- The inline conversion of an `MTBenchEvaluation` to the legacy
evaluation-dict format used by both `_evaluate_with_mt_bench` and
`_batch_evaluate_with_mt_bench`. -/
def mt_evaluation_to_legacy_format (mt_eval : MTBenchEvaluation) : Evaluation where
  content_similarity := (mt_eval.dimension_scores.lookup ("relevance")).getD 0
  style_fidelity := (mt_eval.dimension_scores.lookup ("clarity")).getD 0
  overall_score := mt_eval.overall_score
  mt_bench_scores := some mt_eval.dimension_scores
  reasoning :=
    { content_analysis := mt_eval.reasoning
      style_analysis := "Clarity score:"
      strengths := mt_eval.strengths
      weaknesses := mt_eval.weaknesses }
  evaluation_method := "mt_bench"
  confidence := some mt_eval.confidence

/-- Distribute batch semantic scores back over all responses
(`full_bleurt_scores` padding loop): responses whose expected answer is
blank get `none`, the others consume the computed scores in order. -/
def padScores : List String → List Rat → List (Option Rat)
  | [], _ => []
  | e :: rest, scores =>
    if stripString e ≠ "" then scores.head? :: padScores rest scores.tail
    else none :: padScores rest scores

/-- The semantic-scoring block of `_batch_evaluate_with_mt_bench`
(lines guarded by `use_bleurt and bleurt_scorer`).  Its enclosing
handler maps any failure — a raising `batch_compute_scores` (e.g. a
model-load failure) or an index error while padding, modelled by the
length pre-check — to a list of `none` entries, one per response. -/
def compute_bleurt_scores_for_batch (scorer : Option BLEURTScorer)
    (expected_answers responses : List String) : List (Option Rat) :=
  match scorer with
  | none => []
  | some s =>
    let valid_bleurt_pairs := (expected_answers.zip responses).filter fun p =>
      stripString p.1 ≠ ""
    if valid_bleurt_pairs.isEmpty then List.replicate responses.length none
    else
      match s.batch_compute_scores (valid_bleurt_pairs.map Prod.fst)
          (valid_bleurt_pairs.map Prod.snd) with
      | .error _ => List.replicate responses.length none
      | .ok scores =>
        if scores.length < valid_bleurt_pairs.length then
          List.replicate responses.length none
        else padScores expected_answers scores

/-- The loop body of `_batch_evaluate_with_legacy`, applied to one
enumerated test result.  A `bot_response` stored as `None` reaches the
legacy evaluator and is rendered as the text `None` by the prompt
f-string (`strOfBotResponse`); the raw `None` the source would also
hand to the semantic backend inside fusion is folded into the backend
oracle. -/
def legacy_entry (llm : String → Except String String)
    (loads : String → Except String Json)
    (use_bleurt : Bool) (scorer : Option BLEURTScorer)
    (qa_pairs : List QAPair) (p : Nat × TRecord) : TRecord :=
  let result := p.2
  if truthy result.error then
    { result with evaluation := some (default_evaluation (result.error.getD (""))) }
  else if p.1 < qa_pairs.length then
    let expected_answer := ((qa_pairs.get? p.1).getD ⟨"", ""⟩).answer
    { result with
        evaluation := some (evaluate_with_legacy llm loads use_bleurt scorer
          result.question (strOfBotResponse result.bot_response) expected_answer)
        expected_answer := some expected_answer }
  else
    { result with evaluation := some (default_evaluation ("No expected answer found")) }

/-- `JudgeAI._batch_evaluate_with_legacy`: per-entry sequential legacy
evaluation, defaults for errored entries and entries beyond the QA
list.  Nothing in this body can raise, so it has no failure branch. -/
def batch_evaluate_with_legacy (llm : String → Except String String)
    (loads : String → Except String Json)
    (use_bleurt : Bool) (scorer : Option BLEURTScorer)
    (test_results : List TRecord) (qa_pairs : List QAPair) : List TRecord :=
  test_results.enum.map (legacy_entry llm loads use_bleurt scorer qa_pairs)

/-- The merge-loop body of `_batch_evaluate_with_mt_bench`, applied to
one enumerated test result: attach the converted (and possibly fused)
rubric evaluation to a valid entry, a default evaluation otherwise.
The fusion guard `bleurt_scores and mt_idx < len(bleurt_scores) and
bleurt_scores[mt_idx] is not None` collapses to the successful indexed
lookup of a present score. -/
def mt_merge_entry (qa_pairs : List QAPair) (valid_indices : List Nat)
    (mt_evaluations : List MTBenchEvaluation) (bleurt_scores : List (Option Rat))
    (p : Nat × TRecord) : TRecord :=
  match firstIndexOf p.1 valid_indices with
  | some mt_idx =>
    let mt_eval := (mt_evaluations.get? mt_idx).getD
      (MTBenchEvaluator.create_default_evaluation (""))
    let evaluation_data := mt_evaluation_to_legacy_format mt_eval
    let evaluation_data :=
      match bleurt_scores.get? mt_idx with
      | some (some bleurt_score) =>
        let interp := BLEURTScorer.get_score_interpretation bleurt_score
        let normalized_bleurt := normalize_bleurt_for_weighting bleurt_score
        let weighted_score := 7 / 10 * mt_eval.overall_score + 3 / 10 * normalized_bleurt
        { evaluation_data with
            bleurt_score := some bleurt_score
            bleurt_interpretation := some interp
            evaluation_method := "mt_bench_with_bleurt"
            overall_score := weighted_score
            original_mt_bench_score := some mt_eval.overall_score
            reasoning := { evaluation_data.reasoning with
              bleurt_analysis := some ("BLEURT semantic similarity: " ++ interp) } }
      | _ => evaluation_data
    { p.2 with
        evaluation := some evaluation_data
        expected_answer := some (((qa_pairs.get? p.1).getD ⟨"", ""⟩).answer) }
  | none =>
    { p.2 with
        evaluation := some (default_evaluation
          (p.2.error.getD ("No expected answer found"))) }

/-- `JudgeAI._batch_evaluate_with_mt_bench`.  The source wraps this body
in a handler that forwards the whole batch to
`_batch_evaluate_with_legacy`.  The one reachable raise inside the body
is the eagerly evaluated logging f-string `response[:50]` in
`evaluate_batch_responses`: it raises `TypeError` as soon as some valid
entry stores `None` as its `bot_response` (which the pipeline produces
when the bot handler returns an unexpected reply format), and the
handler then returns the legacy batch result; the embedding models this
with the explicit `None`-response test before the rubric batch call.

Faithful detail: the expected answers passed to the rubric batch
evaluator are read at the position of each question inside the filtered
list (`qa_pairs[i]` under `enumerate(questions)`), not at the original
record index; the semantic-scoring block then reads them at the original
indices (`qa_pairs[valid_indices[i]]`). -/
def batch_evaluate_with_mt_bench (j : JudgeAI) (test_results : List TRecord)
    (qa_pairs : List QAPair) : List TRecord :=
  let valids := test_results.enum.filter fun p =>
    !truthy p.2.error && decide (p.1 < qa_pairs.length)
  let valid_indices := valids.map Prod.fst
  let questions := valids.map fun p => ((qa_pairs.get? p.1).getD ⟨"", ""⟩).question
  let responses := valids.map fun p => p.2.bot_response
  if responses.any Option.isNone then
    batch_evaluate_with_legacy j.llm j.loads j.use_bleurt j.bleurt_scorer
      test_results qa_pairs
  else
    let response_strings := responses.map fun r => r.getD ""
    let qa_for_eval : List QAPair := questions.enum.map fun p =>
      ⟨p.2, ((qa_pairs.get? p.1).getD ⟨"", ""⟩).answer⟩
    let mt_evaluations :=
      MTBenchEvaluator.evaluate_batch_responses j.llm j.loads qa_for_eval
        response_strings
    let bleurt_scores : List (Option Rat) :=
      if j.use_bleurt ∧ j.bleurt_scorer.isSome then
        compute_bleurt_scores_for_batch j.bleurt_scorer
          (valids.map fun p => ((qa_pairs.get? p.1).getD ⟨"", ""⟩).answer)
          response_strings
      else []
    test_results.enum.map (mt_merge_entry qa_pairs valid_indices mt_evaluations
      bleurt_scores)

/-- The evaluation attached by the semantic-only batch path to a valid
entry: the (sigmoid-normalized) semantic score stands in for every score
field. -/
def bleurt_only_evaluation (bleurt_score : Rat) : Evaluation :=
  let interp := BLEURTScorer.get_score_interpretation bleurt_score
  { content_similarity := bleurt_score
    style_fidelity := bleurt_score
    overall_score := bleurt_score
    bleurt_score := some bleurt_score
    bleurt_interpretation := some interp
    reasoning :=
      { content_analysis := "BLEURT semantic similarity: " ++ interp
        style_analysis := "BLEURT score:"
        strengths := []
        weaknesses := []
        bleurt_analysis := some ("BLEURT semantic similarity: " ++ interp) }
    evaluation_method := "bleurt_only"
    confidence := some 1
    quality_distribution := some (analyze_quality_distribution_raw_bleurt [bleurt_score]) }

/-- The exception fallback of `_batch_evaluate_with_bleurt_only`: a
fresh default evaluation on every entry. -/
def bleurt_all_default (msg : String) (test_results : List TRecord) : List TRecord :=
  test_results.map fun r => { r with evaluation := some (default_evaluation msg) }

/-- The merge-loop body of `_batch_evaluate_with_bleurt_only`, applied
to one enumerated test result. -/
def bleurt_merge_entry (qa_pairs : List QAPair) (valid_indices : List Nat)
    (bleurt_scores : List Rat) (p : Nat × TRecord) : TRecord :=
  match firstIndexOf p.1 valid_indices with
  | some bleurt_idx =>
    let bleurt_score := (bleurt_scores.get? bleurt_idx).getD (1 / 10)
    { p.2 with
        evaluation := some (bleurt_only_evaluation bleurt_score)
        expected_answer := some (((qa_pairs.get? p.1).getD ⟨"", ""⟩).answer) }
  | none =>
    { p.2 with
        evaluation := some (default_evaluation
          (p.2.error.getD ("No expected answer"))) }

/-- `JudgeAI._batch_evaluate_with_bleurt_only`.  Everything sits inside
one handler that falls back to all-default evaluations.  The failures
that land there, in the order the source can hit them: the
valid-collection loop logging f-string slices each valid response, so a
valid entry whose `bot_response` is `None` raises `TypeError` first;
then a missing scorer raises an attribute error at the batch call (only
when some valid entry exists); then a raising `batch_compute_scores`
(model-load failure or length mismatch); finally an index error during
the merge, modelled by the length pre-check.  Quote characters inside
the Python exception texts are elided. -/
def batch_evaluate_with_bleurt_only (scorer : Option BLEURTScorer)
    (test_results : List TRecord) (qa_pairs : List QAPair) : List TRecord :=
  let valids := test_results.enum.filter fun p =>
    !truthy p.2.error && decide (p.1 < qa_pairs.length)
      && decide (stripString ((qa_pairs.get? p.1).getD ⟨"", ""⟩).answer ≠ "")
  let valid_indices := valids.map Prod.fst
  let valid_expected := valids.map fun p => ((qa_pairs.get? p.1).getD ⟨"", ""⟩).answer
  if (valids.map fun p => p.2.bot_response).any Option.isNone then
    bleurt_all_default ("BLEURT batch error: NoneType object is not subscriptable")
      test_results
  else
    let valid_responses := valids.map fun p => p.2.bot_response.getD ""
    match (if valids.isEmpty then Except.ok []
           else
             match scorer with
             | none =>
               Except.error ("NoneType object has no attribute batch_compute_scores")
             | some s => s.batch_compute_scores valid_expected valid_responses) with
    | .error e => bleurt_all_default ("BLEURT batch error: " ++ e) test_results
    | .ok bleurt_scores =>
      if valids.length ≤ bleurt_scores.length then
        test_results.enum.map (bleurt_merge_entry qa_pairs valid_indices bleurt_scores)
      else bleurt_all_default ("BLEURT batch error: list index out of range") test_results

/-- `JudgeAI.batch_evaluate`: strategy dispatch fixed by the two
construction flags. -/
def batch_evaluate (j : JudgeAI) (test_results : List TRecord)
    (qa_pairs : List QAPair) : List TRecord :=
  if j.use_mt_bench then batch_evaluate_with_mt_bench j test_results qa_pairs
  else if j.use_bleurt then
    batch_evaluate_with_bleurt_only j.bleurt_scorer test_results qa_pairs
  else
    batch_evaluate_with_legacy j.llm j.loads j.use_bleurt j.bleurt_scorer
      test_results qa_pairs

end JudgeAI

/-- Aggregate metrics dict of `JudgeAI._calculate_legacy_metrics`; the
degenerate branch carries no `score_distribution` key. -/
structure LegacyMetrics where
  total_questions : Nat
  successful_responses : Nat
  avg_content_similarity : Rat
  avg_style_fidelity : Rat
  avg_overall_score : Rat
  pass_rate : Rat
  score_distribution : Option ScoreDistribution
  evaluation_method : String
deriving Repr, DecidableEq, Inhabited

/-- Aggregate metrics dict of `JudgeAI._calculate_bleurt_only_metrics`;
the two degenerate branches carry no min/max/distribution keys, and the
second one carries an `error` key. -/
structure BleurtOnlyMetrics where
  total_questions : Nat
  successful_responses : Nat
  avg_overall_score : Rat
  avg_bleurt_score : Rat
  min_bleurt_score : Option Rat
  max_bleurt_score : Option Rat
  pass_rate : Rat
  evaluation_method : String
  quality_distribution : Option QualityDistribution
  error : Option String
deriving Repr, DecidableEq, Inhabited

/-- The `bleurt_metrics` block optionally added by
`JudgeAI._calculate_mt_bench_metrics`. -/
structure BleurtMetrics where
  avg_bleurt_score : Rat
  min_bleurt_score : Rat
  max_bleurt_score : Rat
  bleurt_evaluations_count : Nat
  bleurt_pass_rate : Rat
deriving Repr, DecidableEq, Inhabited

/-- Result of `JudgeAI._calculate_mt_bench_metrics`: the rubric metrics
plus the optional semantic block. -/
structure JudgeMTMetrics where
  base : MTMetrics
  bleurt_metrics : Option BleurtMetrics
deriving Repr, DecidableEq, Inhabited

/-- The three metric shapes `JudgeAI.calculate_aggregate_metrics` can
return, one per strategy. -/
inductive AggregateMetrics where
  | mt_bench (m : JudgeMTMetrics)
  | bleurt_only (m : BleurtOnlyMetrics)
  | legacy (m : LegacyMetrics)
deriving Repr, DecidableEq, Inhabited

/-- Smallest element of a list of rationals, `none` when empty. -/
def listMin : List Rat → Option Rat
  | [] => none
  | x :: xs => some (xs.foldl min x)

/-- Largest element of a list of rationals, `none` when empty. -/
def listMax : List Rat → Option Rat
  | [] => none
  | x :: xs => some (xs.foldl max x)

namespace JudgeAI

/-- The shared validity filter of all three metric calculators:
entries without a truthy top-level error and with an evaluation
attached (a nonempty dict is truthy, and every attached evaluation dict
is nonempty). -/
def valid_results (evaluated_results : List TRecord) : List TRecord :=
  evaluated_results.filter fun r => !truthy r.error && r.evaluation.isSome

/-- The evaluation attached to a record, defaulting for totality (the
metric calculators only read it on records that passed
`valid_results`, where it is present). -/
def evalOf (r : TRecord) : Evaluation :=
  r.evaluation.getD (default_evaluation (""))

/-- `JudgeAI._calculate_legacy_metrics`: averages, the 0.7-threshold
pass rate and the four-bucket distribution over valid entries; all-zero
metrics on an empty valid set. -/
def calculate_legacy_metrics (evaluated_results : List TRecord) : LegacyMetrics :=
  let valid := valid_results evaluated_results
  if valid.isEmpty then
    { total_questions := evaluated_results.length
      successful_responses := 0
      avg_content_similarity := 0
      avg_style_fidelity := 0
      avg_overall_score := 0
      pass_rate := 0
      score_distribution := none
      evaluation_method := "legacy" }
  else
    let content_scores := valid.map fun r => (evalOf r).content_similarity
    let style_scores := valid.map fun r => (evalOf r).style_fidelity
    let overall_scores := valid.map fun r => (evalOf r).overall_score
    { total_questions := evaluated_results.length
      successful_responses := valid.length
      avg_content_similarity := content_scores.sum / content_scores.length
      avg_style_fidelity := style_scores.sum / style_scores.length
      avg_overall_score := overall_scores.sum / overall_scores.length
      pass_rate :=
        ((overall_scores.filter fun s => 7 / 10 ≤ s).length : Rat) / overall_scores.length
      score_distribution := some (scoreDistributionOf overall_scores)
      evaluation_method := "legacy" }

/-- `JudgeAI._calculate_bleurt_only_metrics`.  Note that its pass rate
is computed over the collected `bleurt_score` values at threshold `0.0`
(`len([s for s in bleurt_scores if s >= 0.0]) / len(bleurt_scores)`) —
not over `overall_score` at threshold `0.7`. -/
def calculate_bleurt_only_metrics (evaluated_results : List TRecord) : BleurtOnlyMetrics :=
  let valid := valid_results evaluated_results
  if valid.isEmpty then
    { total_questions := evaluated_results.length
      successful_responses := 0
      avg_overall_score := 0
      avg_bleurt_score := 0
      min_bleurt_score := none
      max_bleurt_score := none
      pass_rate := 0
      evaluation_method := "bleurt_only"
      quality_distribution := none
      error := none }
  else
    let score_pairs := valid.filterMap fun r =>
      match (evalOf r).bleurt_score with
      | some b => some (b, (evalOf r).overall_score)
      | none => none
    let bleurt_scores := score_pairs.map Prod.fst
    let overall_scores := score_pairs.map Prod.snd
    if bleurt_scores.isEmpty then
      { total_questions := evaluated_results.length
        successful_responses := valid.length
        avg_overall_score := 0
        avg_bleurt_score := 0
        min_bleurt_score := none
        max_bleurt_score := none
        pass_rate := 0
        evaluation_method := "bleurt_only"
        quality_distribution := none
        error := some ("BLEURT evaluation failed - no valid BLEURT scores") }
    else
      { total_questions := evaluated_results.length
        successful_responses := valid.length
        avg_overall_score := overall_scores.sum / overall_scores.length
        avg_bleurt_score := bleurt_scores.sum / bleurt_scores.length
        min_bleurt_score := listMin bleurt_scores
        max_bleurt_score := listMax bleurt_scores
        pass_rate :=
          ((bleurt_scores.filter fun s => 0 ≤ s).length : Rat) / bleurt_scores.length
        evaluation_method := "bleurt_only"
        quality_distribution := some (analyze_quality_distribution_raw_bleurt bleurt_scores)
        error := none }

/-- Rebuild an `MTBenchEvaluation` from a stored legacy-format
evaluation, as `_calculate_mt_bench_metrics` does, preferring the
retained unfused rubric score when present. -/
def mt_evaluation_of_stored (ev : Evaluation) : MTBenchEvaluation where
  overall_score := ev.original_mt_bench_score.getD ev.overall_score
  dimension_scores := ev.mt_bench_scores.getD []
  reasoning := ev.reasoning.content_analysis
  strengths := ev.reasoning.strengths
  weaknesses := ev.reasoning.weaknesses
  confidence := ev.confidence.getD (1 / 2)

/-- `JudgeAI._calculate_mt_bench_metrics`: filter to rubric-method
entries, delegate to the rubric aggregate metrics, and attach the
optional semantic block (whose own pass rate uses threshold `0.0`). -/
def calculate_mt_bench_metrics (evaluated_results : List TRecord) : JudgeMTMetrics :=
  let valid := valid_results evaluated_results
  if valid.isEmpty then
    { base := MTBenchEvaluator.create_default_metrics, bleurt_metrics := none }
  else
    let selected := valid.filter fun r =>
      (evalOf r).evaluation_method = "mt_bench"
        ∨ (evalOf r).evaluation_method = "mt_bench_with_bleurt"
    let mt_evaluations := selected.map fun r => mt_evaluation_of_stored (evalOf r)
    let bleurt_scores_for_metrics := selected.map fun r => (evalOf r).bleurt_score
    let base := MTBenchEvaluator.calculate_aggregate_metrics mt_evaluations
    let valid_bleurt_scores := bleurt_scores_for_metrics.filterMap id
    if valid_bleurt_scores.isEmpty then
      { base := base, bleurt_metrics := none }
    else
      { base := base
        bleurt_metrics := some
          { avg_bleurt_score := valid_bleurt_scores.sum / valid_bleurt_scores.length
            min_bleurt_score := (listMin valid_bleurt_scores).getD 0
            max_bleurt_score := (listMax valid_bleurt_scores).getD 0
            bleurt_evaluations_count := valid_bleurt_scores.length
            bleurt_pass_rate :=
              ((valid_bleurt_scores.filter fun s => 0 ≤ s).length : Rat)
                / valid_bleurt_scores.length } }

/-- `JudgeAI.calculate_aggregate_metrics`: strategy dispatch over the
three metric calculators. -/
def calculate_aggregate_metrics (j : JudgeAI) (evaluated_results : List TRecord) :
    AggregateMetrics :=
  if j.use_mt_bench then .mt_bench (calculate_mt_bench_metrics evaluated_results)
  else if j.use_bleurt then .bleurt_only (calculate_bleurt_only_metrics evaluated_results)
  else .legacy (calculate_legacy_metrics evaluated_results)

/-- `calculate_aggregate_metrics` together with the post-call state of
its input list.  The source computes every metric by reading
`evaluated_results`; no statement in any of the three calculators or
their helpers assigns into the input records, so the translation
returns the input list unchanged as the post-call state. -/
def calculate_aggregate_metrics_run (j : JudgeAI) (evaluated_results : List TRecord) :
    AggregateMetrics × List TRecord :=
  (calculate_aggregate_metrics j evaluated_results, evaluated_results)

end JudgeAI

namespace MTBenchEvaluator

/-- `MTBenchEvaluator.calculate_aggregate_metrics` together with the
post-call state of its input list; as with the dispatcher, the source
only reads its input. -/
def calculate_aggregate_metrics_run (evaluations : List MTBenchEvaluation) :
    MTMetrics × List MTBenchEvaluation :=
  (calculate_aggregate_metrics evaluations, evaluations)

end MTBenchEvaluator

/-!
## QuestionExtractor — `tester_ai.py`

Only the firing loop is claim-relevant.  The bot callback is an oracle
that either returns a result record or raises; the loop clock
(`asyncio.get_event_loop().time()`, read when building an error record)
is an oracle from the question index to a timestamp.
-/

namespace TesterAI

/-- `TesterAI.fire_questions_sequentially`: strictly ordered iteration;
a raising callback is converted inline into an error record — with
`question_index`, `question`, `error`, `bot_response = None` and a
timestamp, and no `status` key — after which the loop continues. -/
def fire_questions_sequentially
    (orchestrator_callback : String → Nat → Except String TRecord)
    (clock : Nat → Rat) (questions : List String) : List TRecord :=
  questions.enum.map fun p =>
    match orchestrator_callback p.2 p.1 with
    | .ok result => result
    | .error e =>
      { question_index := p.1
        question := p.2
        error := some e
        bot_response := none
        timestamp := clock p.1 }

end TesterAI

/-!
## Orchestrator — `orchestrator.py`

Claim-relevant pieces: the per-question callback handed to the firing
loop, and the session-id counter shared by the three session kinds.
The remaining session bookkeeping (slots, progress dicts, snapshots) is
not read by any claim and is elided.
-/

namespace AnalyzeOrchestrator

/-- `AnalyzeOrchestrator._handle_question_callback` combined with
`_get_gavin_bot_response`.  The bot handler oracle returns the message
extracted from the reply (`ok (some s)`), `ok none` for an unexpected
reply format, or raises.  The callback catches everything and returns a
record with `status` of `success` or `error`; it never raises. -/
def handle_question_callback (bot : String → Except String (Option String))
    (now : Rat) (question : String) (question_index : Nat) : TRecord :=
  match bot question with
  | .ok bot_response =>
    { question_index := question_index
      question := question
      bot_response := bot_response
      timestamp := now
      status := some "success" }
  | .error e =>
    { question_index := question_index
      question := question
      bot_response := none
      timestamp := now
      status := some "error"
      error := some e }

/-- The orchestrator state read by the claims: the session-id counter,
set to `0` in `__init__`. -/
structure State where
  session_id : Nat
deriving Repr, DecidableEq, Inhabited

/-- Fresh orchestrator (`__init__`). -/
def initialState : State := { session_id := 0 }

/-- `AnalyzeOrchestrator.start_stress_test`: `self.session_id += 1`,
then the new id is returned in the response dict. -/
def start_stress_test (o : State) : Nat × State :=
  (o.session_id + 1, { o with session_id := o.session_id + 1 })

/-- `AnalyzeOrchestrator.start_content_analysis`: same increment of the
shared counter. -/
def start_content_analysis (o : State) : Nat × State :=
  (o.session_id + 1, { o with session_id := o.session_id + 1 })

/-- `AnalyzeOrchestrator.start_multi_turn_test`: same increment of the
shared counter. -/
def start_multi_turn_test (o : State) : Nat × State :=
  (o.session_id + 1, { o with session_id := o.session_id + 1 })

/-- The three session kinds sharing one orchestrator instance. -/
inductive StartKind where
  | stress
  | content
  | multi_turn
deriving Repr, DecidableEq, Inhabited

/-- Dispatch one session start of the given kind. -/
def startOfKind : StartKind → State → Nat × State
  | .stress, o => start_stress_test o
  | .content, o => start_content_analysis o
  | .multi_turn, o => start_multi_turn_test o

/-- Run a sequence of session starts, collecting the assigned ids. -/
def runStarts : List StartKind → State → List Nat × State
  | [], o => ([], o)
  | k :: ks, o =>
    let p := startOfKind k o
    let rest := runStarts ks p.2
    (p.1 :: rest.1, rest.2)

end AnalyzeOrchestrator

/-!
## Concrete fixtures

Concrete oracles and records used to evaluate the embedded code at
specific inputs.
-/

/-- A bot callback that throws on the third question (index 2) and
answers the rest. -/
def throwingThirdCallback : String → Nat → Except String TRecord := fun q i =>
  if i = 2 then .error ("boom")
  else .ok { question_index := i, question := q, bot_response := some ("ans"),
             timestamp := 0, status := some ("success") }

/-- Five sample questions. -/
def fiveQuestions : List String := ["q1", "q2", "q3", "q4", "q5"]

/-- An LLM reply carrying a perfect legacy rubric verdict. -/
def perfectLegacyReply : String :=
  "\x7b\"content_similarity\": 1, \"style_fidelity\": 1, \"overall_score\": 1\x7d"

/-- The parse of `perfectLegacyReply`. -/
def perfectLegacyJson : Json :=
  .obj [("content_similarity", .num 1), ("style_fidelity", .num 1),
        ("overall_score", .num 1)]

/-- An LLM oracle that always answers with the perfect legacy verdict. -/
def perfectLegacyLLM : String → Except String String := fun _ => .ok perfectLegacyReply

/-- A `json.loads` oracle recognizing exactly the perfect legacy verdict. -/
def perfectLegacyLoads : String → Except String Json := fun s =>
  if s = perfectLegacyReply then .ok perfectLegacyJson else .error ("Expecting value")

/-- A loaded semantic scorer whose backend reports raw score 0 for every
pair; its normalization is the identity. -/
def zeroScoreScorer : BLEURTScorer where
  model_loaded := true
  load_result := .ok ()
  backend := fun _ _ => .ok [0]
  normalize := fun q => q

/-- One successfully evaluated semantic-only record with score 0.5. -/
def halfScoreBleurtRecord : TRecord where
  question_index := 0
  question := "q"
  bot_response := some ("resp")
  timestamp := 0
  status := some ("success")
  evaluation := some (JudgeAI.bleurt_only_evaluation (1 / 2))
  expected_answer := some ("a")

/-- A judge in the orchestrator configuration (rubric on, semantic
scorer off) whose LLM call always throws. -/
def throwingRubricJudge : JudgeAI where
  use_mt_bench := true
  use_bleurt := false
  llm := fun _ => .error ("rate limited")
  loads := fun _ => .error ("Expecting value")
  bleurt_scorer := none

/-- One pristine test result, and a matching QA pair. -/
def singleTestResult : List TRecord :=
  [{ question_index := 0, question := "q", bot_response := some ("resp"),
     timestamp := 0, status := some ("success") }]

/-- The matching QA pair for `singleTestResult`. -/
def singleQAPair : List QAPair := [⟨"q", "a"⟩]

/-- The evaluation that the rubric batch path attaches to a valid entry
when the judge LLM always throws: the converted default rubric verdict. -/
def defaultRubricEvaluation : Evaluation :=
  JudgeAI.mt_evaluation_to_legacy_format
    (MTBenchEvaluator.create_default_evaluation ("Evaluation error: rate limited"))

/-- A rubric reply whose overall score exceeds 1. -/
def outOfRangeReply : String := "\x7b\"overall_score\": 2\x7d"

/-- The parse of `outOfRangeReply`. -/
def outOfRangeJson : Json := .obj [("overall_score", .num 2)]

/-- A rubric-only judge whose LLM always returns the out-of-range
verdict. -/
def outOfRangeJudge : JudgeAI where
  use_mt_bench := true
  use_bleurt := false
  llm := fun _ => .ok outOfRangeReply
  loads := fun s => if s = outOfRangeReply then .ok outOfRangeJson
    else .error ("Expecting value")
  bleurt_scorer := none

/-!
## Helper lemmas
-/

/-- `firstIndexOf` succeeds exactly on members. -/
theorem JudgeAI.firstIndexOf_isSome_iff (x : Nat) (l : List Nat) :
    (JudgeAI.firstIndexOf x l).isSome ↔ x ∈ l := by
  induction l with
  | nil => simp [JudgeAI.firstIndexOf]
  | cons y ys ih =>
    by_cases h : y = x
    · simp [JudgeAI.firstIndexOf, h]
    · simp only [JudgeAI.firstIndexOf, if_neg h, List.mem_cons]
      cases hfi : JudgeAI.firstIndexOf x ys <;> simp [hfi] at ih ⊢
      · exact ⟨fun hxy => h (Eq.symm hxy), ih⟩
      · exact Or.inr ih

/-- Invariants of one merge step lift to a map over the enumerated
list: length is preserved, pre-evaluation fields are preserved
positionally, and every output record carries an evaluation. -/
theorem map_enum_entry_invariants (trs : List TRecord) (f : Nat × TRecord → TRecord)
    (hf : ∀ p, (f p).base = p.2.base ∧ (f p).evaluation.isSome = true) :
    (trs.enum.map f).length = trs.length
      ∧ (∀ i : Nat, ((trs.enum.map f).get? i).map TRecord.base
          = (trs.get? i).map TRecord.base)
      ∧ (∀ i : Nat, ((trs.enum.map f).get? i).map (fun r => r.evaluation.isSome)
          = (trs.get? i).map (fun _ => true)) := by
  refine ⟨by simp, fun i => ?_, fun i => ?_⟩ <;>
  · rw [List.get?_map, List.get?_enum]
    cases h : trs.get? i with
    | none => rfl
    | some r => simp [(hf (i, r)).1, (hf (i, r)).2]

/-- The same invariants for a plain map over the records. -/
theorem map_entry_invariants (trs : List TRecord) (g : TRecord → TRecord)
    (hg : ∀ r, (g r).base = r.base ∧ (g r).evaluation.isSome = true) :
    (trs.map g).length = trs.length
      ∧ (∀ i : Nat, ((trs.map g).get? i).map TRecord.base
          = (trs.get? i).map TRecord.base)
      ∧ (∀ i : Nat, ((trs.map g).get? i).map (fun r => r.evaluation.isSome)
          = (trs.get? i).map (fun _ => true)) := by
  refine ⟨by simp, fun i => ?_, fun i => ?_⟩ <;>
  · rw [List.get?_map]
    cases h : trs.get? i with
    | none => rfl
    | some r => simp [(hg r).1, (hg r).2]

/-- The MT-Bench merge step preserves the pre-evaluation fields and
always attaches an evaluation. -/
theorem mt_merge_entry_invariants (qa_pairs : List QAPair) (valid_indices : List Nat)
    (mt_evaluations : List MTBenchEvaluation) (bleurt_scores : List (Option Rat))
    (p : Nat × TRecord) :
    (JudgeAI.mt_merge_entry qa_pairs valid_indices mt_evaluations bleurt_scores p).base
        = p.2.base
      ∧ (JudgeAI.mt_merge_entry qa_pairs valid_indices mt_evaluations bleurt_scores
          p).evaluation.isSome = true := by
  unfold JudgeAI.mt_merge_entry
  split <;> simp [TRecord.base]

/-- The semantic-only merge step preserves the pre-evaluation fields
and always attaches an evaluation. -/
theorem bleurt_merge_entry_invariants (qa_pairs : List QAPair)
    (valid_indices : List Nat) (bleurt_scores : List Rat) (p : Nat × TRecord) :
    (JudgeAI.bleurt_merge_entry qa_pairs valid_indices bleurt_scores p).base = p.2.base
      ∧ (JudgeAI.bleurt_merge_entry qa_pairs valid_indices bleurt_scores
          p).evaluation.isSome = true := by
  unfold JudgeAI.bleurt_merge_entry
  split <;> simp [TRecord.base]

/-- The legacy loop step preserves the pre-evaluation fields and always
attaches an evaluation. -/
theorem legacy_entry_invariants (llm : String → Except String String)
    (loads : String → Except String Json) (use_bleurt : Bool)
    (scorer : Option BLEURTScorer) (qa_pairs : List QAPair) (p : Nat × TRecord) :
    (JudgeAI.legacy_entry llm loads use_bleurt scorer qa_pairs p).base = p.2.base
      ∧ (JudgeAI.legacy_entry llm loads use_bleurt scorer qa_pairs
          p).evaluation.isSome = true := by
  unfold JudgeAI.legacy_entry
  by_cases h1 : truthy p.2.error = true
  · simp [h1, TRecord.base]
  · by_cases h2 : p.1 < qa_pairs.length
    · simp [h1, h2, TRecord.base]
    · simp [h1, h2, TRecord.base]

/-- The all-default fallback preserves the pre-evaluation fields and
always attaches an evaluation. -/
theorem bleurt_all_default_entry_invariants (msg : String) (r : TRecord) :
    ({ r with evaluation := some (JudgeAI.default_evaluation msg) } : TRecord).base = r.base
      ∧ ({ r with evaluation := some (JudgeAI.default_evaluation msg) }
          : TRecord).evaluation.isSome = true := by
  simp [TRecord.base]

/-- `batch_evaluate` invariants shared by the strategy paths: one output
per input, base fields preserved positionally, an evaluation on every
output record. -/
theorem batch_evaluate_invariants_aux (j : JudgeAI) (test_results : List TRecord)
    (qa_pairs : List QAPair) :
    (JudgeAI.batch_evaluate j test_results qa_pairs).length = test_results.length
      ∧ (∀ i : Nat, ((JudgeAI.batch_evaluate j test_results qa_pairs).get? i).map TRecord.base
          = (test_results.get? i).map TRecord.base)
      ∧ (∀ i : Nat, ((JudgeAI.batch_evaluate j test_results qa_pairs).get? i).map
            (fun r => r.evaluation.isSome)
          = (test_results.get? i).map (fun _ => true)) := by
  unfold JudgeAI.batch_evaluate
  split
  · -- MT-Bench path
    unfold JudgeAI.batch_evaluate_with_mt_bench
    dsimp only
    split
    · -- a valid entry stores None: logging raises, whole batch goes legacy
      unfold JudgeAI.batch_evaluate_with_legacy
      exact map_enum_entry_invariants _ _ fun p => legacy_entry_invariants _ _ _ _ _ p
    · exact map_enum_entry_invariants _ _ fun p => mt_merge_entry_invariants _ _ _ _ p
  split
  · -- semantic-only path
    unfold JudgeAI.batch_evaluate_with_bleurt_only
    dsimp only
    split
    · -- a valid entry stores None: logging raises, all defaults
      exact map_entry_invariants _ _ fun r => bleurt_all_default_entry_invariants _ r
    · split
      · exact map_entry_invariants _ _ fun r => bleurt_all_default_entry_invariants _ r
      · split
        · exact map_enum_entry_invariants _ _ fun p => bleurt_merge_entry_invariants _ _ _ p
        · exact map_entry_invariants _ _ fun r => bleurt_all_default_entry_invariants _ r
  · -- legacy path
    unfold JudgeAI.batch_evaluate_with_legacy
    exact map_enum_entry_invariants _ _ fun p => legacy_entry_invariants _ _ _ _ _ p

/-- The firing loop produces exactly one record per question. -/
theorem TesterAI.length_fire_questions_sequentially
    (orchestrator_callback : String → Nat → Except String TRecord)
    (clock : Nat → Rat) (questions : List String) :
    (TesterAI.fire_questions_sequentially orchestrator_callback clock questions).length
      = questions.length := by
  simp [TesterAI.fire_questions_sequentially]

/-- C1: for every session pipeline run that reaches the evaluation
stage, the three session lists have equal length:
`fire_questions_sequentially` returns exactly one test result per input
question, and `batch_evaluate` returns exactly one evaluated entry per
input test result under every strategy (regardless of errored entries
or missing QA pairs), so the evaluated list has exactly one entry per
question. -/
theorem session_lists_equal_length (j : JudgeAI)
    (orchestrator_callback : String → Nat → Except String TRecord)
    (clock : Nat → Rat) (questions : List String) (qa_pairs : List QAPair) :
    (TesterAI.fire_questions_sequentially orchestrator_callback clock questions).length
        = questions.length
      ∧ (JudgeAI.batch_evaluate j
          (TesterAI.fire_questions_sequentially orchestrator_callback clock questions)
          qa_pairs).length = questions.length
      ∧ (∀ test_results : List TRecord,
          (JudgeAI.batch_evaluate j test_results qa_pairs).length
            = test_results.length) := by
  refine ⟨TesterAI.length_fire_questions_sequentially _ _ _, ?_,
    fun test_results => (batch_evaluate_invariants_aux j test_results qa_pairs).1⟩
  rw [(batch_evaluate_invariants_aux j _ qa_pairs).1]
  exact TesterAI.length_fire_questions_sequentially _ _ _

/-- C9: under every strategy branch (including the fallback paths),
`batch_evaluate` returns a list with exactly one record per input
record, positionally; each output record preserves all pre-evaluation
fields of the corresponding input record — the observable content of
the in-place augmentation performed by the source — and every output
record carries an evaluation. -/
theorem batch_evaluate_augments_records (j : JudgeAI) (test_results : List TRecord)
    (qa_pairs : List QAPair) :
    (JudgeAI.batch_evaluate j test_results qa_pairs).length = test_results.length
      ∧ (∀ i : Nat, ((JudgeAI.batch_evaluate j test_results qa_pairs).get? i).map TRecord.base
          = (test_results.get? i).map TRecord.base)
      ∧ (∀ i : Nat, ((JudgeAI.batch_evaluate j test_results qa_pairs).get? i).map
            (fun r => r.evaluation.isSome)
          = (test_results.get? i).map (fun _ => true)) :=
  batch_evaluate_invariants_aux j test_results qa_pairs

/-- Session ids assigned by any interleaving of session starts from a
given state form the consecutive range starting one above the stored
counter. -/
theorem AnalyzeOrchestrator.runStarts_ids (ks : List AnalyzeOrchestrator.StartKind)
    (o : AnalyzeOrchestrator.State) :
    (AnalyzeOrchestrator.runStarts ks o).1
        = List.range' (o.session_id + 1) ks.length
      ∧ (AnalyzeOrchestrator.runStarts ks o).2.session_id
        = o.session_id + ks.length := by
  induction ks generalizing o with
  | nil => simp [AnalyzeOrchestrator.runStarts]
  | cons k ks ih =>
    have hstart : AnalyzeOrchestrator.startOfKind k o
        = (o.session_id + 1, { session_id := o.session_id + 1 }) := by
      cases k <;> rfl
    refine ⟨?_, ?_⟩
    · simp only [AnalyzeOrchestrator.runStarts, hstart, List.length_cons,
        List.range'_succ]
      exact congrArg _ (ih _).1
    · simp only [AnalyzeOrchestrator.runStarts, hstart]
      rw [(ih _).2]
      show o.session_id + 1 + ks.length = o.session_id + (k :: ks).length
      simp only [List.length_cons]
      omega

/-- C10: within one orchestrator instance, the session ids assigned by
`start_stress_test`, `start_content_analysis` and
`start_multi_turn_test` — in any interleaving of the three kinds — are
exactly 1, 2, 3, …: each start assigns the previous id plus one, the
ids are strictly increasing, and no two sessions of any kind share an
id. -/
theorem session_ids_unique_and_increasing (ks : List AnalyzeOrchestrator.StartKind) :
    (AnalyzeOrchestrator.runStarts ks AnalyzeOrchestrator.initialState).1
        = List.range' 1 ks.length
      ∧ List.Pairwise (· < ·)
          (AnalyzeOrchestrator.runStarts ks AnalyzeOrchestrator.initialState).1
      ∧ (AnalyzeOrchestrator.runStarts ks AnalyzeOrchestrator.initialState).1.Nodup := by
  have h := (AnalyzeOrchestrator.runStarts_ids ks AnalyzeOrchestrator.initialState).1
  have h1 : (AnalyzeOrchestrator.runStarts ks AnalyzeOrchestrator.initialState).1
      = List.range' 1 ks.length := by
    simpa [AnalyzeOrchestrator.initialState] using h
  refine ⟨h1, ?_, ?_⟩
  · rw [h1]; exact List.pairwise_lt_range' 1 ks.length
  · rw [h1]; exact List.nodup_range' 1 ks.length

/-- C8: both aggregate-metrics entry points are pure in their input list
— the post-call list state equals the input — and therefore idempotent:
recomputing the metrics on the list left behind by a first call yields
identical output.  Purity is established at translation time: no
statement in `calculate_aggregate_metrics`, `_calculate_mt_bench_metrics`,
`_calculate_bleurt_only_metrics`, `_calculate_legacy_metrics` or
`MTBenchEvaluator.calculate_aggregate_metrics` assigns into the input
records; the `run` embeddings therefore return the input unchanged. -/
theorem calculate_aggregate_metrics_idempotent (j : JudgeAI)
    (evaluated_results : List TRecord) (evaluations : List MTBenchEvaluation) :
    (JudgeAI.calculate_aggregate_metrics_run j evaluated_results).2 = evaluated_results
      ∧ (JudgeAI.calculate_aggregate_metrics_run j
          (JudgeAI.calculate_aggregate_metrics_run j evaluated_results).2).1
        = (JudgeAI.calculate_aggregate_metrics_run j evaluated_results).1
      ∧ (MTBenchEvaluator.calculate_aggregate_metrics_run evaluations).2 = evaluations
      ∧ (MTBenchEvaluator.calculate_aggregate_metrics_run
          (MTBenchEvaluator.calculate_aggregate_metrics_run evaluations).2).1
        = (MTBenchEvaluator.calculate_aggregate_metrics_run evaluations).1 :=
  ⟨rfl, rfl, rfl, rfl⟩

/-- C5 counterexample: when the similarity model fails to load,
`compute_score` does not return the sentinel 0.1 — the load failure is
re-raised before the scoring `try` block and propagates to the caller,
and so does the same failure in `batch_compute_scores`. -/
theorem compute_score_load_failure_raises :
    (BLEURTScorer.compute_score
        { model_loaded := false
          load_result := .error "BLEURT model failed to load"
          backend := fun _ _ => .ok []
          normalize := fun q => q } "expected" "candidate")
        = .error "BLEURT model failed to load"
      ∧ (BLEURTScorer.compute_score
          { model_loaded := false
            load_result := .error "BLEURT model failed to load"
            backend := fun _ _ => .ok []
            normalize := fun q => q } "expected" "candidate")
        ≠ .ok (1 / 10)
      ∧ (BLEURTScorer.batch_compute_scores
          { model_loaded := false
            load_result := .error "BLEURT model failed to load"
            backend := fun _ _ => .ok []
            normalize := fun q => q } ["expected"] ["candidate"])
        = .error "BLEURT model failed to load" :=
  ⟨rfl, fun h => Except.noConfusion h, rfl⟩

/-- C5 (amended): when the similarity model is loaded (or loads
successfully) and the scoring computation itself throws,
`compute_score` returns the fixed sentinel 0.1 and
`batch_compute_scores` returns a list of 0.1 sentinels of the input
length; a model-load failure instead propagates as an exception. -/
theorem sentinel_on_scoring_failure (s : BLEURTScorer)
    (reference candidate : String) (references candidates : List String)
    (e₁ e₂ : String)
    (hload : s.ensure_loaded = .ok ())
    (hfail₁ : s.backend [candidate] [reference] = .error e₁)
    (hfail₂ : s.backend candidates references = .error e₂)
    (hlen : references.length = candidates.length) :
    s.compute_score reference candidate = .ok (1 / 10)
      ∧ s.batch_compute_scores references candidates
        = .ok (List.replicate references.length (1 / 10)) := by
  constructor
  · unfold BLEURTScorer.compute_score
    rw [hload]
    simp only [hfail₁]
    rfl
  · unfold BLEURTScorer.batch_compute_scores
    rw [hload]
    simp [hfail₂, hlen]
    rfl

/-- C5 witness: the amended statement at a concrete scorer whose backend
throws. -/
theorem sentinel_on_scoring_failure_witness :
    (BLEURTScorer.compute_score
        { model_loaded := true
          load_result := .ok ()
          backend := fun _ _ => .error "scoring failed"
          normalize := fun q => q } "r" "c") = .ok (1 / 10)
      ∧ (BLEURTScorer.batch_compute_scores
          { model_loaded := true
            load_result := .ok ()
            backend := fun _ _ => .error "scoring failed"
            normalize := fun q => q } ["r1", "r2"] ["c1", "c2"])
        = .ok [1 / 10, 1 / 10] := by
  have h := sentinel_on_scoring_failure
    { model_loaded := true
      load_result := .ok ()
      backend := fun _ _ => .error "scoring failed"
      normalize := fun q => q }
    "r" "c" ["r1", "r2"] ["c1", "c2"] "scoring failed" "scoring failed"
    rfl rfl rfl rfl
  exact ⟨h.1, h.2⟩

/-- C6 counterexample: when the callback for the third question throws,
the record stored at position 2 carries the error message and a `None`
response but no `status` key at all — its status is not the string
`error`. -/
theorem fire_error_record_lacks_status :
    (TesterAI.fire_questions_sequentially throwingThirdCallback (fun _ => 0)
        fiveQuestions).length = 5
      ∧ ((TesterAI.fire_questions_sequentially throwingThirdCallback (fun _ => 0)
          fiveQuestions).get? 2).map TRecord.status = some none
      ∧ ((TesterAI.fire_questions_sequentially throwingThirdCallback (fun _ => 0)
          fiveQuestions).get? 2).map TRecord.status ≠ some (some ("error"))
      ∧ ((TesterAI.fire_questions_sequentially throwingThirdCallback (fun _ => 0)
          fiveQuestions).get? 2).map TRecord.bot_response = some none
      ∧ ((TesterAI.fire_questions_sequentially throwingThirdCallback (fun _ => 0)
          fiveQuestions).get? 2).map TRecord.error = some (some ("boom")) := by
  refine ⟨by decide, by decide, by decide, by decide, by decide⟩

/-- C6 (amended): if the callback invocation for question `i` throws,
`fire_questions_sequentially` records at position `i` a result carrying
the error message, with `bot_response = None` and no `status` field,
and the loop continues: the output keeps one entry per question and
every position still holds exactly the outcome of its own callback
invocation. -/
theorem fire_continues_after_callback_error
    (orchestrator_callback : String → Nat → Except String TRecord)
    (clock : Nat → Rat) (questions : List String) (i : Nat) (q e : String)
    (hq : questions.get? i = some q)
    (hcb : orchestrator_callback q i = .error e) :
    (TesterAI.fire_questions_sequentially orchestrator_callback clock questions).length
        = questions.length
      ∧ (TesterAI.fire_questions_sequentially orchestrator_callback clock
          questions).get? i
        = some { question_index := i, question := q, error := some e,
                 bot_response := none, timestamp := clock i }
      ∧ ∀ jdx : Nat,
          (TesterAI.fire_questions_sequentially orchestrator_callback clock
            questions).get? jdx
            = (questions.get? jdx).map fun qq =>
                match orchestrator_callback qq jdx with
                | .ok result => result
                | .error ee =>
                  { question_index := jdx, question := qq, error := some ee,
                    bot_response := none, timestamp := clock jdx } := by
  have hall : ∀ jdx : Nat,
      (TesterAI.fire_questions_sequentially orchestrator_callback clock
        questions).get? jdx
        = (questions.get? jdx).map fun qq =>
            match orchestrator_callback qq jdx with
            | .ok result => result
            | .error ee =>
              { question_index := jdx, question := qq, error := some ee,
                bot_response := none, timestamp := clock jdx } := by
    intro jdx
    unfold TesterAI.fire_questions_sequentially
    rw [List.get?_map, List.get?_enum]
    cases questions.get? jdx <;> rfl
  refine ⟨TesterAI.length_fire_questions_sequentially _ _ _, ?_, hall⟩
  rw [hall i, hq]
  simp [hcb]

/-- C6 witness: the amended statement at the concrete five-question run
whose third callback throws. -/
theorem fire_continues_after_callback_error_witness :
    fiveQuestions.get? 2 = some ("q3")
      ∧ throwingThirdCallback "q3" 2 = .error ("boom")
      ∧ (TesterAI.fire_questions_sequentially throwingThirdCallback (fun _ => 0)
          fiveQuestions).get? 2
        = some { question_index := 2, question := "q3", error := some ("boom"),
                 bot_response := none, timestamp := 0 } :=
  ⟨by decide, rfl,
    (fire_continues_after_callback_error throwingThirdCallback (fun _ => 0)
      fiveQuestions 2 "q3" "boom" (by decide) rfl).2.1⟩

/-- C2: the fused legacy score follows the 0.7/0.3 formula, but the
source stores `original_legacy_score` only after `overall_score` has
already been overwritten with the fused value, so the retained field
holds the fused score 0.85 and the unfused rubric overall 1.0 is lost
from the record. -/
theorem legacy_fusion_overwrites_retained_score :
    (JudgeAI.legacy_base_evaluation perfectLegacyLLM perfectLegacyLoads
        "q" "resp" "ref").overall_score = 1
      ∧ (JudgeAI.evaluate_with_legacy perfectLegacyLLM perfectLegacyLoads true
          (some zeroScoreScorer) "q" "resp" "ref").overall_score
        = 7 / 10 * 1 + 3 / 10 * JudgeAI.normalize_bleurt_for_weighting 0
      ∧ (JudgeAI.evaluate_with_legacy perfectLegacyLLM perfectLegacyLoads true
          (some zeroScoreScorer) "q" "resp" "ref").overall_score = 17 / 20
      ∧ (JudgeAI.evaluate_with_legacy perfectLegacyLLM perfectLegacyLoads true
          (some zeroScoreScorer) "q" "resp" "ref").original_legacy_score
        = some (17 / 20)
      ∧ (JudgeAI.evaluate_with_legacy perfectLegacyLLM perfectLegacyLoads true
          (some zeroScoreScorer) "q" "resp" "ref").original_legacy_score
        ≠ some 1 := by
  refine ⟨by decide, by with_unfolding_all decide, by with_unfolding_all decide,
    by with_unfolding_all decide, by with_unfolding_all decide⟩

/-- C3 counterexample: for a single successfully evaluated semantic-only
record with score 0.5, the BLEURT-only aggregate reports a pass rate of
1 (its pass threshold is `bleurt_score ≥ 0.0`), while the claimed
formula — the fraction of included evaluations with
`overall_score ≥ 0.7` — yields 0. -/
theorem bleurt_only_pass_rate_threshold_mismatch :
    (JudgeAI.calculate_bleurt_only_metrics [halfScoreBleurtRecord]).pass_rate = 1
      ∧ (((JudgeAI.valid_results [halfScoreBleurtRecord]).filter fun r =>
            decide (7 / 10 ≤ (JudgeAI.evalOf r).overall_score)).length : Rat)
          / ((JudgeAI.valid_results [halfScoreBleurtRecord]).length : Rat) = 0
      ∧ (JudgeAI.calculate_bleurt_only_metrics [halfScoreBleurtRecord]).pass_rate
        ≠ (((JudgeAI.valid_results [halfScoreBleurtRecord]).filter fun r =>
            decide (7 / 10 ≤ (JudgeAI.evalOf r).overall_score)).length : Rat)
          / ((JudgeAI.valid_results [halfScoreBleurtRecord]).length : Rat) := by
  refine ⟨by with_unfolding_all decide, by with_unfolding_all decide,
    by with_unfolding_all decide⟩

/-- Projecting the first components of the score pairs collected by the
BLEURT-only metrics yields exactly the present `bleurt_score` values. -/
theorem map_fst_bleurt_score_pairs (l : List TRecord) :
    ((l.filterMap fun r =>
        match (JudgeAI.evalOf r).bleurt_score with
        | some b => some (b, (JudgeAI.evalOf r).overall_score)
        | none => none).map Prod.fst)
      = l.filterMap fun r => (JudgeAI.evalOf r).bleurt_score := by
  induction l with
  | nil => rfl
  | cons r rest ih =>
    cases h : (JudgeAI.evalOf r).bleurt_score <;>
      simp [List.filterMap_cons, h, ih]

/-- C3 (amended): the legacy and MT-Bench aggregate computations report
`pass_rate` as exactly the count of included evaluations with
`overall_score ≥ 0.7` over the number of included evaluations; the
BLEURT-only variant instead reports the count of collected
`bleurt_score` values `≥ 0.0` over the number of collected
`bleurt_score` values.  (Fractions use the `Rat` convention `0 / 0 = 0`,
matching the all-zero degenerate branches of the source.) -/
theorem pass_rate_equals_fraction (evaluated_results : List TRecord)
    (evaluations : List MTBenchEvaluation) :
    (JudgeAI.calculate_legacy_metrics evaluated_results).pass_rate
        = (((JudgeAI.valid_results evaluated_results).filter fun r =>
              decide (7 / 10 ≤ (JudgeAI.evalOf r).overall_score)).length : Rat)
          / ((JudgeAI.valid_results evaluated_results).length : Rat)
      ∧ (MTBenchEvaluator.calculate_aggregate_metrics evaluations).pass_rate
        = ((evaluations.filter fun e => decide (7 / 10 ≤ e.overall_score)).length : Rat)
          / (evaluations.length : Rat)
      ∧ (JudgeAI.calculate_bleurt_only_metrics evaluated_results).pass_rate
        = ((((JudgeAI.valid_results evaluated_results).filterMap fun r =>
              (JudgeAI.evalOf r).bleurt_score).filter fun s => decide (0 ≤ s)).length : Rat)
          / (((JudgeAI.valid_results evaluated_results).filterMap fun r =>
              (JudgeAI.evalOf r).bleurt_score).length : Rat) := by
  refine ⟨?_, ?_, ?_⟩
  · unfold JudgeAI.calculate_legacy_metrics
    by_cases hv : (JudgeAI.valid_results evaluated_results).isEmpty
    · rw [List.isEmpty_iff] at hv
      simp [hv]
    · simp only [hv, if_false, List.filter_map]
      simp [Function.comp_def]
  · unfold MTBenchEvaluator.calculate_aggregate_metrics
    by_cases hv : evaluations.isEmpty
    · rw [List.isEmpty_iff] at hv
      simp [hv, MTBenchEvaluator.create_default_metrics]
    · simp only [hv, if_false, List.filter_map]
      simp [Function.comp_def]
  · unfold JudgeAI.calculate_bleurt_only_metrics
    by_cases hv : (JudgeAI.valid_results evaluated_results).isEmpty
    · rw [List.isEmpty_iff] at hv
      simp [hv]
    · simp only [hv, if_false]
      rw [map_fst_bleurt_score_pairs]
      by_cases hb : ((JudgeAI.valid_results evaluated_results).filterMap fun r =>
          (JudgeAI.evalOf r).bleurt_score).isEmpty
      · rw [List.isEmpty_iff] at hb
        simp [hb]
      · simp [hb]

/-- An index belongs to the valid-index list of a filtered enumeration
exactly when its own record satisfies the filter. -/
theorem mem_valid_indices_iff (test_results : List TRecord)
    (pred : Nat × TRecord → Bool) (i : Nat) (r : TRecord)
    (h : test_results.get? i = some r) :
    (i ∈ (test_results.enum.filter pred).map Prod.fst) ↔ pred (i, r) = true := by
  constructor
  · intro hm
    rcases List.mem_map.mp hm with ⟨p, hp, hfst⟩
    obtain ⟨n, a⟩ := p
    rcases List.mem_filter.mp hp with ⟨henum, hpred⟩
    have hget : test_results.get? n = some a := List.mk_mem_enum_iff_get?.mp henum
    cases hfst
    rw [h] at hget
    injection hget with hra
    rw [← hra] at hpred
    exact hpred
  · intro hpred
    exact List.mem_map.mpr ⟨(i, r),
      List.mem_filter.mpr ⟨List.mk_mem_enum_iff_get?.mpr h, hpred⟩, rfl⟩

/-- When the judge LLM throws on every call, every rubric evaluation the
batch evaluator returns is the zeroed default verdict. -/
theorem evaluate_batch_responses_all_default (e0 : String)
    (loads : String → Except String Json) (qa_pairs : List QAPair)
    (responses : List String) :
    ∀ x ∈ MTBenchEvaluator.evaluate_batch_responses (fun _ => .error e0) loads
        qa_pairs responses, x.overall_score = 0 := by
  intro x hx
  rcases List.mem_map.mp hx with ⟨p, _, rfl⟩
  rfl

/-- Per-entry outcome of the MT-Bench merge when every rubric
evaluation is zeroed and no semantic scores were computed: a valid
entry carries a zeroed `mt_bench` verdict, a skipped entry a `legacy`
default. -/
theorem mt_merge_entry_spec (qa_pairs : List QAPair) (test_results : List TRecord)
    (mt_evaluations : List MTBenchEvaluation) (i : Nat) (r : TRecord)
    (h : test_results.get? i = some r)
    (hme : ∀ x ∈ mt_evaluations, x.overall_score = 0) :
    (JudgeAI.mt_merge_entry qa_pairs
        ((test_results.enum.filter fun p =>
            !truthy p.2.error && decide (p.1 < qa_pairs.length)).map Prod.fst)
        mt_evaluations [] (i, r)).evaluation.map
          (fun ev => (ev.evaluation_method, ev.overall_score))
      = some (if !truthy r.error && decide (i < qa_pairs.length)
              then (("mt_bench" : String), (0 : Rat)) else ("legacy", 0)) := by
  unfold JudgeAI.mt_merge_entry
  cases hfi : JudgeAI.firstIndexOf i
      ((test_results.enum.filter fun p =>
          !truthy p.2.error && decide (p.1 < qa_pairs.length)).map Prod.fst) with
  | none =>
    have hni : i ∉ (test_results.enum.filter fun p =>
        !truthy p.2.error && decide (p.1 < qa_pairs.length)).map Prod.fst := by
      intro hm
      have := (JudgeAI.firstIndexOf_isSome_iff i _).mpr hm
      rw [hfi] at this
      simp at this
    have hpred : (!truthy r.error && decide (i < qa_pairs.length)) = false := by
      cases hp : (!truthy r.error && decide (i < qa_pairs.length)) with
      | false => rfl
      | true =>
        exact absurd ((mem_valid_indices_iff test_results
          (fun p => !truthy p.2.error && decide (p.1 < qa_pairs.length)) i r h).mpr hp) hni
    simp [hpred, JudgeAI.default_evaluation]
  | some mt_idx =>
    have hm : i ∈ (test_results.enum.filter fun p =>
        !truthy p.2.error && decide (p.1 < qa_pairs.length)).map Prod.fst := by
      have := JudgeAI.firstIndexOf_isSome_iff i
        ((test_results.enum.filter fun p =>
            !truthy p.2.error && decide (p.1 < qa_pairs.length)).map Prod.fst)
      rw [hfi] at this
      exact this.mp rfl
    have hpred := (mem_valid_indices_iff test_results
      (fun p => !truthy p.2.error && decide (p.1 < qa_pairs.length)) i r h).mp hm
    have hoverall : ((mt_evaluations.get? mt_idx).getD
        (MTBenchEvaluator.create_default_evaluation (""))).overall_score = 0 := by
      cases hk : mt_evaluations.get? mt_idx with
      | none => rfl
      | some x => exact (by simpa [hk] using hme x (List.get?_mem hk))
    rw [List.get?_eq_getElem?] at hoverall
    simp [hpred, JudgeAI.mt_evaluation_to_legacy_format, hoverall]

/-- Every record the legacy loop body produces under a universally
throwing LLM carries a zeroed `legacy` default evaluation: errored and
out-of-range entries get the default directly, and a valid entry gets
the default because the legacy parse propagates the LLM failure. -/
theorem legacy_entry_throwing_spec (e0 : String)
    (loads : String → Except String Json) (use_bleurt : Bool)
    (scorer : Option BLEURTScorer) (qa_pairs : List QAPair) (p : Nat × TRecord) :
    (JudgeAI.legacy_entry (fun _ => .error e0) loads use_bleurt scorer qa_pairs
        p).evaluation.map (fun ev => (ev.evaluation_method, ev.overall_score))
      = some (("legacy" : String), (0 : Rat)) := by
  unfold JudgeAI.legacy_entry
  by_cases h1 : truthy p.2.error = true
  · simp [h1, JudgeAI.default_evaluation]
  · by_cases h2 : p.1 < qa_pairs.length
    · simp [h1, h2, JudgeAI.evaluate_with_legacy, JudgeAI.legacy_parse,
        JudgeAI.default_evaluation]
    · simp [h1, h2, JudgeAI.default_evaluation]

/-- C4 counterexample: with the rubric strategy selected (semantic
scorer off, as the orchestrator configures) and an LLM that throws on
every invocation, `batch_evaluate` returns without raising — but the
valid entry carries a zeroed default verdict with `evaluation_method`
`mt_bench`, not `legacy`: the rubric→legacy fallback never fires,
because `evaluate_single_response` swallows the exception and returns a
default rubric evaluation. -/
theorem rubric_llm_failure_not_legacy :
    ((JudgeAI.batch_evaluate throwingRubricJudge singleTestResult
        singleQAPair).get? 0).map
        (fun r => r.evaluation.map fun ev => ev.evaluation_method)
      = some (some ("mt_bench"))
      ∧ ((JudgeAI.batch_evaluate throwingRubricJudge singleTestResult
          singleQAPair).get? 0).map
          (fun r => r.evaluation.map fun ev => ev.evaluation_method)
        ≠ some (some ("legacy"))
      ∧ ((JudgeAI.batch_evaluate throwingRubricJudge singleTestResult
          singleQAPair).get? 0).map
          (fun r => r.evaluation.map fun ev => ev.overall_score)
        = some (some 0) := by
  refine ⟨by with_unfolding_all decide, by with_unfolding_all decide,
    by with_unfolding_all decide⟩

/-- C4 (amended): if the rubric LLM throws on every invocation (rubric
strategy selected, semantic scorer off as the orchestrator configures),
`batch_evaluate` still returns one evaluated entry per input, and no
rubric-to-legacy fallback ever fires on account of the LLM failure
itself.  When every usable entry stores a string response, each usable
entry carries a zeroed default rubric verdict with `evaluation_method`
`mt_bench` while skipped entries (errored or lacking a QA pair) carry
`legacy` defaults; only when some usable entry stores its response as
`None` does the batch logging raise a `TypeError`, making the whole
batch fall back to the legacy evaluator, whose entries all carry
zeroed `legacy` defaults under the throwing LLM. -/
theorem rubric_llm_failure_all_entries_defaulted (e0 : String)
    (loads : String → Except String Json) (test_results : List TRecord)
    (qa_pairs : List QAPair) :
    (JudgeAI.batch_evaluate
        { use_mt_bench := true, use_bleurt := false, llm := fun _ => .error e0,
          loads := loads, bleurt_scorer := none } test_results qa_pairs).length
        = test_results.length
      ∧ ∀ i : Nat,
          ((JudgeAI.batch_evaluate
              { use_mt_bench := true, use_bleurt := false, llm := fun _ => .error e0,
                loads := loads, bleurt_scorer := none } test_results
              qa_pairs).get? i).map
              (fun r => r.evaluation.map fun ev => (ev.evaluation_method, ev.overall_score))
            = (test_results.get? i).map fun r =>
                some (if ((test_results.enum.filter fun p =>
                          !truthy p.2.error && decide (p.1 < qa_pairs.length)).map
                          fun p => p.2.bot_response).any Option.isNone
                      then (("legacy" : String), (0 : Rat))
                      else if !truthy r.error && decide (i < qa_pairs.length)
                      then ("mt_bench", 0) else ("legacy", 0)) := by
  refine ⟨(batch_evaluate_invariants_aux _ _ _).1, fun i => ?_⟩
  have hmt : JudgeAI.batch_evaluate
      { use_mt_bench := true, use_bleurt := false, llm := fun _ => .error e0,
        loads := loads, bleurt_scorer := none } test_results qa_pairs
      = JudgeAI.batch_evaluate_with_mt_bench
        { use_mt_bench := true, use_bleurt := false, llm := fun _ => .error e0,
          loads := loads, bleurt_scorer := none } test_results qa_pairs := rfl
  rw [hmt]
  cases hB : ((test_results.enum.filter fun p =>
      !truthy p.2.error && decide (p.1 < qa_pairs.length)).map fun p =>
      p.2.bot_response).any Option.isNone with
  | true =>
    have hleg : JudgeAI.batch_evaluate_with_mt_bench
        { use_mt_bench := true, use_bleurt := false, llm := fun _ => .error e0,
          loads := loads, bleurt_scorer := none } test_results qa_pairs
        = JudgeAI.batch_evaluate_with_legacy (fun _ => .error e0) loads false none
            test_results qa_pairs := by
      unfold JudgeAI.batch_evaluate_with_mt_bench
      dsimp only
      rw [hB]
      simp
    rw [hleg]
    unfold JudgeAI.batch_evaluate_with_legacy
    rw [List.get?_map, List.get?_enum]
    cases h : test_results.get? i with
    | none => rfl
    | some r =>
      simpa using legacy_entry_throwing_spec e0 loads false none qa_pairs (i, r)
  | false =>
    unfold JudgeAI.batch_evaluate_with_mt_bench
    dsimp only
    rw [hB]
    simp only [Bool.false_eq_true, false_and, if_false, Option.isSome_none,
      and_false, ite_false]
    rw [List.get?_map, List.get?_enum]
    cases h : test_results.get? i with
    | none => rfl
    | some r =>
      simpa using mt_merge_entry_spec qa_pairs test_results _ i r h
        (evaluate_batch_responses_all_default e0 loads _ _)

/-- The fusion normalization is clamped into the unit interval. -/
theorem normalize_bleurt_for_weighting_bounds (x : Rat) :
    0 ≤ JudgeAI.normalize_bleurt_for_weighting x
      ∧ JudgeAI.normalize_bleurt_for_weighting x ≤ 1 := by
  unfold JudgeAI.normalize_bleurt_for_weighting
  exact ⟨le_max_left 0 _, max_le (by norm_num) (min_le_left 1 _)⟩

/-- The 0.7/0.3 fusion of a unit-interval rubric score with the clamped
semantic normalization stays in the unit interval. -/
theorem fused_score_bounds (o x : Rat) (ho : 0 ≤ o ∧ o ≤ 1) :
    0 ≤ 7 / 10 * o + 3 / 10 * JudgeAI.normalize_bleurt_for_weighting x
      ∧ 7 / 10 * o + 3 / 10 * JudgeAI.normalize_bleurt_for_weighting x ≤ 1 := by
  have hn := normalize_bleurt_for_weighting_bounds x
  constructor <;> nlinarith [ho.1, ho.2, hn.1, hn.2]

/-- If every parse of an LLM reply yields a unit-interval overall score,
so does every single rubric evaluation (a throwing LLM call yields the
zeroed default). -/
theorem evaluate_single_response_bounds (llm : String → Except String String)
    (loads : String → Except String Json)
    (hmt : ∀ s : String,
      0 ≤ (MTBenchEvaluator.parse_evaluation_response loads s).overall_score
        ∧ (MTBenchEvaluator.parse_evaluation_response loads s).overall_score ≤ 1)
    (question response : String) (context expected_answer : Option String) :
    0 ≤ (MTBenchEvaluator.evaluate_single_response llm loads question response
        context expected_answer).overall_score
      ∧ (MTBenchEvaluator.evaluate_single_response llm loads question response
          context expected_answer).overall_score ≤ 1 := by
  unfold MTBenchEvaluator.evaluate_single_response
  cases llm (MTBenchEvaluator.build_evaluation_prompt question response context
      expected_answer none) with
  | error e =>
    simp [MTBenchEvaluator.create_default_evaluation]
  | ok reply => exact hmt reply

/-- Batch rubric evaluations inherit the unit-interval bound
member-wise. -/
theorem evaluate_batch_responses_bounds (llm : String → Except String String)
    (loads : String → Except String Json)
    (hmt : ∀ s : String,
      0 ≤ (MTBenchEvaluator.parse_evaluation_response loads s).overall_score
        ∧ (MTBenchEvaluator.parse_evaluation_response loads s).overall_score ≤ 1)
    (qa_pairs : List QAPair) (responses : List String) :
    ∀ x ∈ MTBenchEvaluator.evaluate_batch_responses llm loads qa_pairs responses,
      0 ≤ x.overall_score ∧ x.overall_score ≤ 1 := by
  intro x hx
  rcases List.mem_map.mp hx with ⟨p, _, rfl⟩
  exact evaluate_single_response_bounds llm loads hmt _ _ _ _

/-- Every evaluation attached by the MT-Bench merge step has a
unit-interval overall score, provided the rubric evaluations it merges
do. -/
theorem mt_merge_entry_bounds (qa_pairs : List QAPair) (valid_indices : List Nat)
    (mt_evaluations : List MTBenchEvaluation) (bleurt_scores : List (Option Rat))
    (p : Nat × TRecord) (ev : Evaluation)
    (hme : ∀ x ∈ mt_evaluations, 0 ≤ x.overall_score ∧ x.overall_score ≤ 1)
    (hev : (JudgeAI.mt_merge_entry qa_pairs valid_indices mt_evaluations
        bleurt_scores p).evaluation = some ev) :
    0 ≤ ev.overall_score ∧ ev.overall_score ≤ 1 := by
  have hgetD : 0 ≤ ((mt_evaluations.get? (JudgeAI.firstIndexOf p.1
        valid_indices).iget).getD
        (MTBenchEvaluator.create_default_evaluation (""))).overall_score
      ∧ ((mt_evaluations.get? (JudgeAI.firstIndexOf p.1 valid_indices).iget).getD
        (MTBenchEvaluator.create_default_evaluation (""))).overall_score ≤ 1 := by
    cases hk : mt_evaluations.get? (JudgeAI.firstIndexOf p.1 valid_indices).iget with
    | none => simp [MTBenchEvaluator.create_default_evaluation]
    | some x => simpa [hk] using hme x (List.get?_mem hk)
  unfold JudgeAI.mt_merge_entry at hev
  cases hfi : JudgeAI.firstIndexOf p.1 valid_indices with
  | none =>
    rw [hfi] at hev
    simp only [Option.some.injEq] at hev
    rw [← hev]
    simp [JudgeAI.default_evaluation]
  | some mt_idx =>
    rw [hfi] at hev
    rw [hfi] at hgetD
    simp only [Option.iget_some] at hgetD
    dsimp only at hev
    cases hbs : bleurt_scores.get? mt_idx with
    | none =>
      rw [hbs] at hev
      dsimp only at hev
      simp only [Option.some.injEq] at hev
      rw [← hev]
      simpa [JudgeAI.mt_evaluation_to_legacy_format] using hgetD
    | some ob =>
      cases ob with
      | none =>
        rw [hbs] at hev
        dsimp only at hev
        simp only [Option.some.injEq] at hev
        rw [← hev]
        simpa [JudgeAI.mt_evaluation_to_legacy_format] using hgetD
      | some b =>
        rw [hbs] at hev
        dsimp only at hev
        simp only [Option.some.injEq] at hev
        rw [← hev]
        simpa [JudgeAI.mt_evaluation_to_legacy_format] using
          fused_score_bounds _ b hgetD

/-- If the parsed legacy evaluation has a unit-interval overall score,
the optionally fused legacy evaluation does too. -/
theorem evaluate_with_legacy_bounds (llm : String → Except String String)
    (loads : String → Except String Json) (use_bleurt : Bool)
    (scorer : Option BLEURTScorer) (question bot_response expected_answer : String)
    (hleg : 0 ≤ (JudgeAI.legacy_base_evaluation llm loads question bot_response
        expected_answer).overall_score
      ∧ (JudgeAI.legacy_base_evaluation llm loads question bot_response
          expected_answer).overall_score ≤ 1) :
    0 ≤ (JudgeAI.evaluate_with_legacy llm loads use_bleurt scorer question
        bot_response expected_answer).overall_score
      ∧ (JudgeAI.evaluate_with_legacy llm loads use_bleurt scorer question
          bot_response expected_answer).overall_score ≤ 1 := by
  unfold JudgeAI.evaluate_with_legacy
  unfold JudgeAI.legacy_base_evaluation at hleg
  cases hp : JudgeAI.legacy_parse llm loads question bot_response expected_answer with
  | error m =>
    rw [hp] at hleg
    dsimp only
    exact hleg
  | ok evaluation =>
    rw [hp] at hleg
    dsimp only at hleg ⊢
    cases scorer with
    | none => exact hleg
    | some s =>
      dsimp only
      split
      · cases hc : s.compute_score expected_answer bot_response with
        | error e => exact hleg
        | ok b =>
          dsimp only
          simpa using fused_score_bounds evaluation.overall_score b hleg
      · exact hleg

/-- Every evaluation attached by the legacy loop body has a
unit-interval overall score, given the parse-stage bound. -/
theorem legacy_entry_bounds (llm : String → Except String String)
    (loads : String → Except String Json) (use_bleurt : Bool)
    (scorer : Option BLEURTScorer) (qa_pairs : List QAPair) (p : Nat × TRecord)
    (ev : Evaluation)
    (hleg : ∀ question bot_response expected_answer : String,
      0 ≤ (JudgeAI.legacy_base_evaluation llm loads question bot_response
          expected_answer).overall_score
        ∧ (JudgeAI.legacy_base_evaluation llm loads question bot_response
            expected_answer).overall_score ≤ 1)
    (hev : (JudgeAI.legacy_entry llm loads use_bleurt scorer qa_pairs p).evaluation
        = some ev) :
    0 ≤ ev.overall_score ∧ ev.overall_score ≤ 1 := by
  unfold JudgeAI.legacy_entry at hev
  by_cases h1 : truthy p.2.error = true
  · rw [if_pos h1] at hev
    dsimp only at hev
    simp only [Option.some.injEq] at hev
    rw [← hev]
    simp [JudgeAI.default_evaluation]
  · rw [if_neg h1] at hev
    by_cases h2 : p.1 < qa_pairs.length
    · rw [if_pos h2] at hev
      dsimp only at hev
      simp only [Option.some.injEq] at hev
      rw [← hev]
      exact evaluate_with_legacy_bounds llm loads use_bleurt scorer _ _ _ (hleg _ _ _)
    · rw [if_neg h2] at hev
      dsimp only at hev
      simp only [Option.some.injEq] at hev
      rw [← hev]
      simp [JudgeAI.default_evaluation]

/-- Records produced by the all-default fallback carry the zeroed
default evaluation. -/
theorem bleurt_all_default_bounds (msg : String) (test_results : List TRecord)
    (r : TRecord) (ev : Evaluation)
    (hr : r ∈ JudgeAI.bleurt_all_default msg test_results)
    (hev : r.evaluation = some ev) :
    0 ≤ ev.overall_score ∧ ev.overall_score ≤ 1 := by
  rcases List.mem_map.mp hr with ⟨x, _, rfl⟩
  simp only [Option.some.injEq] at hev
  rw [← hev]
  simp [JudgeAI.default_evaluation]

/-- Evaluations attached by the semantic-only merge are either labelled
with the exempt `bleurt_only` method or are zeroed legacy defaults, so
the bounded-method implication holds for them. -/
theorem bleurt_merge_entry_bounds (qa_pairs : List QAPair) (valid_indices : List Nat)
    (bleurt_scores : List Rat) (p : Nat × TRecord) (ev : Evaluation)
    (hev : (JudgeAI.bleurt_merge_entry qa_pairs valid_indices bleurt_scores
        p).evaluation = some ev)
    (hm : ev.evaluation_method = "mt_bench" ∨ ev.evaluation_method = "mt_bench_with_bleurt"
      ∨ ev.evaluation_method = "legacy") :
    0 ≤ ev.overall_score ∧ ev.overall_score ≤ 1 := by
  unfold JudgeAI.bleurt_merge_entry at hev
  cases hfi : JudgeAI.firstIndexOf p.1 valid_indices with
  | none =>
    rw [hfi] at hev
    simp only [Option.some.injEq] at hev
    rw [← hev]
    simp [JudgeAI.default_evaluation]
  | some bleurt_idx =>
    rw [hfi] at hev
    dsimp only at hev
    simp only [Option.some.injEq] at hev
    rw [← hev] at hm
    rcases hm with hm | hm | hm <;>
      simp [JudgeAI.bleurt_only_evaluation] at hm

/-- C7 (amended): every evaluation that `batch_evaluate` attaches with
`evaluation_method` `mt_bench`, `mt_bench_with_bleurt` or `legacy` has
`overall_score` in [0, 1], provided every overall score parsed out of
an LLM reply lies in [0, 1] — the parsers themselves never clamp, so an
out-of-range parsed value would propagate verbatim (see the
counterexample). -/
theorem overall_score_bounds (j : JudgeAI) (test_results : List TRecord)
    (qa_pairs : List QAPair)
    (hmt : ∀ s : String,
      0 ≤ (MTBenchEvaluator.parse_evaluation_response j.loads s).overall_score
        ∧ (MTBenchEvaluator.parse_evaluation_response j.loads s).overall_score ≤ 1)
    (hleg : ∀ question bot_response expected_answer : String,
      0 ≤ (JudgeAI.legacy_base_evaluation j.llm j.loads question bot_response
          expected_answer).overall_score
        ∧ (JudgeAI.legacy_base_evaluation j.llm j.loads question bot_response
            expected_answer).overall_score ≤ 1) :
    ∀ r ∈ JudgeAI.batch_evaluate j test_results qa_pairs, ∀ ev : Evaluation,
      r.evaluation = some ev →
      (ev.evaluation_method = "mt_bench" ∨ ev.evaluation_method = "mt_bench_with_bleurt"
        ∨ ev.evaluation_method = "legacy") →
      0 ≤ ev.overall_score ∧ ev.overall_score ≤ 1 := by
  intro r hr ev hev hm
  unfold JudgeAI.batch_evaluate at hr
  split at hr
  · unfold JudgeAI.batch_evaluate_with_mt_bench at hr
    dsimp only at hr
    split at hr
    · -- a valid entry stores None: whole batch fell back to legacy
      unfold JudgeAI.batch_evaluate_with_legacy at hr
      rcases List.mem_map.mp hr with ⟨p, _, rfl⟩
      exact legacy_entry_bounds j.llm j.loads _ _ qa_pairs p ev hleg hev
    · rcases List.mem_map.mp hr with ⟨p, _, rfl⟩
      exact mt_merge_entry_bounds _ _ _ _ p ev
        (evaluate_batch_responses_bounds j.llm j.loads hmt _ _) hev
  · split at hr
    · unfold JudgeAI.batch_evaluate_with_bleurt_only at hr
      dsimp only at hr
      split at hr
      · -- a valid entry stores None: all defaults
        exact bleurt_all_default_bounds _ _ r ev hr hev
      · split at hr
        · exact bleurt_all_default_bounds _ _ r ev hr hev
        · split at hr
          · rcases List.mem_map.mp hr with ⟨p, _, rfl⟩
            exact bleurt_merge_entry_bounds _ _ _ p ev hev hm
          · exact bleurt_all_default_bounds _ _ r ev hr hev
    · unfold JudgeAI.batch_evaluate_with_legacy at hr
      rcases List.mem_map.mp hr with ⟨p, _, rfl⟩
      exact legacy_entry_bounds j.llm j.loads _ _ qa_pairs p ev hleg hev

/-- C7 counterexample: the rubric parser does not clamp — a reply whose
JSON carries `overall_score = 2` produces an evaluation with
`evaluation_method` `mt_bench` and an overall score of 2, outside
[0, 1]. -/
theorem parsed_overall_score_not_clamped :
    ((JudgeAI.batch_evaluate outOfRangeJudge singleTestResult
        singleQAPair).get? 0).map
        (fun r => r.evaluation.map fun ev => (ev.evaluation_method, ev.overall_score))
      = some (some ("mt_bench", 2))
      ∧ ¬ ((2 : Rat) ≤ 1) := by
  refine ⟨by with_unfolding_all decide, by norm_num⟩

/-- C7 witness: the amended statement applied to the concrete
rubric-only judge whose LLM always throws; the evaluation its batch
attaches to the valid entry is bounded. -/
theorem overall_score_bounds_witness :
    0 ≤ defaultRubricEvaluation.overall_score
      ∧ defaultRubricEvaluation.overall_score ≤ 1 := by
  have hmt : ∀ s : String,
      0 ≤ (MTBenchEvaluator.parse_evaluation_response throwingRubricJudge.loads
          s).overall_score
        ∧ (MTBenchEvaluator.parse_evaluation_response throwingRubricJudge.loads
            s).overall_score ≤ 1 := by
    intro s
    unfold MTBenchEvaluator.parse_evaluation_response
    cases MTBenchEvaluator.extractBraces s with
    | none => simp [MTBenchEvaluator.create_default_evaluation]
    | some js =>
      simp [throwingRubricJudge, MTBenchEvaluator.create_default_evaluation]
  have hleg : ∀ question bot_response expected_answer : String,
      0 ≤ (JudgeAI.legacy_base_evaluation throwingRubricJudge.llm
          throwingRubricJudge.loads question bot_response
          expected_answer).overall_score
        ∧ (JudgeAI.legacy_base_evaluation throwingRubricJudge.llm
            throwingRubricJudge.loads question bot_response
            expected_answer).overall_score ≤ 1 := by
    intro question bot_response expected_answer
    unfold JudgeAI.legacy_base_evaluation JudgeAI.legacy_parse
    simp [throwingRubricJudge, JudgeAI.default_evaluation]
  exact overall_score_bounds throwingRubricJudge singleTestResult singleQAPair
    hmt hleg
    { question_index := 0, question := "q", bot_response := some ("resp"),
      timestamp := 0, status := some ("success"),
      evaluation := some defaultRubricEvaluation, expected_answer := some ("a") }
    (by with_unfolding_all decide) defaultRubricEvaluation rfl (Or.inl rfl)
